import Mathlib

/-!
Verification of the aquarium watchface animation engine (`src/c/main.c`,
the most advanced variant of this repository).

The C code is shallowly embedded: every entity struct becomes a Lean
structure over `Int` (C `int` / `int16_t` values never approach the 32-bit
boundary in this engine, so exact integers are the faithful model; the one
place where the spec talks about overflow — the bounded random sampler —
additionally gets a 32-bit wrap-around model), `rand()` is modelled as an
oracle `g : Nat -> Int` of successive nonnegative draws threaded by an
explicit call counter, and C `/` and `%` on `int` are `Int.tdiv` and
`Int.tmod` (truncation towards zero).
-/

/-- Pebble SDK constant `TRIG_MAX_ANGLE` (0x10000): one full circle. -/
def TRIG_MAX_ANGLE : Int := 65536

/-- C `abs` on `int`. -/
def cabs (v : Int) : Int := if v < 0 then -v else v

/-- Population constants from `main.c`. -/
def MAX_FISH : Nat := 5

/-- Number of big (predator) fish slots; the fish array holds
`MAX_FISH + MAX_BIG_FISH = 7` slots, big fish at indices 5 and 6. -/
def MAX_BIG_FISH : Nat := 2

/-- `GRID_WIDTH`/`GRID_HEIGHT` are both 3; `GRID_CELL_COUNT = 9`. -/
def GRID_WIDTH : Int := 3

/-- Grid height constant. -/
def GRID_HEIGHT : Int := 3

/-- `GRID_CELL_COUNT = GRID_WIDTH * GRID_HEIGHT`. -/
def GRID_CELL_COUNT : Int := GRID_WIDTH * GRID_HEIGHT

/-- Animation timer period constants (`ANIMATION_INTERVAL`,
`ANIMATION_INTERVAL_LOW_POWER`, `LOW_BATTERY_THRESHOLD`). -/
def ANIMATION_INTERVAL : Int := 50

/-- Low-power animation period (ms). -/
def ANIMATION_INTERVAL_LOW_POWER : Int := 100

/-- Battery percentage at or below which the engine is in low-power mode. -/
def LOW_BATTERY_THRESHOLD : Int := 20

/-- `random_in_range(min, max)` from `main.c`, with the `rand()` call
modelled by the oracle `g` at call counter `k`.  Returns the drawn value
and the next counter.  All engine call sites use tiny constant ranges, so
the C `int` arithmetic here is exact and is modelled over `Int`; the
32-bit wrap-around model used for the overflow claim is
`random_in_range32` below. -/
def random_in_range (g : Nat → Int) (k : Nat) (mn mx : Int) : Int × Nat :=
  if mx ≤ mn then (mn, k)
  else
    let range := mx - mn + 1
    if range ≤ 0 then (mn, k)
    else (mn + Int.tmod (g k) range, k + 1)

/-- Two's-complement wrap of a mathematical integer into a signed 32-bit
`int`, used to model C overflow behaviour faithfully. -/
def wrap32 (v : Int) : Int := (v + 2 ^ 31) % 2 ^ 32 - 2 ^ 31

/-- `random_in_range` with every C `int` addition/subtraction wrapped to
32 bits, exposing the overflow behaviour of `int range = max - min + 1`
(the `range <= 0` guard is the code's overflow protection).  `r` is the
value returned by `rand()` (nonnegative). -/
def random_in_range32 (r mn mx : Int) : Int :=
  if mx ≤ mn then mn
  else
    let range := wrap32 (wrap32 (mx - mn) + 1)
    if range ≤ 0 then mn
    else wrap32 (mn + Int.tmod r range)

/-- `check_collision` from `main.c`: circle collision on squared
distance.  Positions are passed as separate coordinates. -/
def check_collision (x1 y1 r1 x2 y2 r2 : Int) : Bool :=
  let dx := x1 - x2
  let dy := y1 - y2
  let distance_squared := dx * dx + dy * dy
  let radius_sum := r1 + r2
  decide (distance_squared ≤ radius_sum * radius_sum)

/-- The shark's prey-overlap test from `animation_update`
(`abs(dx) < 20 && abs(dy) < 12`): an axis-aligned box test, not a circle
test. -/
def shark_bite (sx sy fx fy : Int) : Bool :=
  decide (cabs (sx - fx) < 20) && decide (cabs (sy - fy) < 12)

/-- `get_grid_cell` from `main.c`.  Note the unparenthesised macros
`GRID_CELL_WIDTH 144 / GRID_WIDTH` and `GRID_CELL_HEIGHT 168 / GRID_HEIGHT`:
`point.x / GRID_CELL_WIDTH` expands to `point.x / 144 / 3` (and the y
analogue to `point.y / 168 / 3`), which is what is modelled here, followed
by the two sequential clamping `if`s of the C code. -/
def get_grid_cell (x y : Int) : Int :=
  let gx0 := Int.tdiv (Int.tdiv x 144) 3
  let gx1 := if gx0 < 0 then 0 else gx0
  let gx := if GRID_WIDTH ≤ gx1 then GRID_WIDTH - 1 else gx1
  let gy0 := Int.tdiv (Int.tdiv y 168) 3
  let gy1 := if gy0 < 0 then 0 else gy0
  let gy := if GRID_HEIGHT ≤ gy1 then GRID_HEIGHT - 1 else gy1
  gy * GRID_WIDTH + gx

/-- Fish record (`struct Fish`). -/
structure Fish where
  posx : Int
  posy : Int
  direction : Int
  speed : Int
  active : Bool
  size : Int
  grid_cell : Int
deriving Repr, DecidableEq

/-- Seaweed record (`struct Seaweed`). -/
structure Seaweed where
  basex : Int
  basey : Int
  offset : Int
  speed : Int
deriving Repr, DecidableEq

/-- Bubble record (`struct Bubble`). -/
structure Bubble where
  posx : Int
  posy : Int
  size : Int
  speed : Int
  active : Bool
deriving Repr, DecidableEq

/-- Plankton record (`struct Plankton`). -/
structure Plankton where
  posx : Int
  posy : Int
  direction : Int
  speed : Int
  active : Bool
deriving Repr, DecidableEq

/-- Octopus record (`struct Octopus`). -/
structure Octopus where
  posx : Int
  posy : Int
  direction : Int
  tentacle_offset : Int
  speed : Int
deriving Repr, DecidableEq

/-- Turtle record (`struct Turtle`). -/
structure Turtle where
  posx : Int
  posy : Int
  direction : Int
  animation_offset : Int
  speed : Int
deriving Repr, DecidableEq

/-- Jellyfish record (`struct Jellyfish`). -/
structure Jellyfish where
  posx : Int
  posy : Int
  tentacle_offset : Int
  pulse_state : Int
  speed : Int
deriving Repr, DecidableEq

/-- Shark record (`struct Shark`). -/
structure Shark where
  posx : Int
  posy : Int
  direction : Int
  jaw_state : Int
  speed : Int
  active : Bool
  timer : Int
deriving Repr, DecidableEq

/-- Seahorse record (`struct Seahorse`). -/
structure Seahorse where
  posx : Int
  posy : Int
  curve_state : Int
  active : Bool
  timer : Int
deriving Repr, DecidableEq

/-- Crab record (`struct Crab`). -/
structure Crab where
  posx : Int
  posy : Int
  direction : Int
  claw_state : Int
  speed : Int
deriving Repr, DecidableEq

/-- Clam record (`struct Clam`). -/
structure Clam where
  posx : Int
  posy : Int
  open_state : Int
deriving Repr, DecidableEq

/-- Whole-scene state: the module-level entity pools of `main.c`. -/
structure Aquarium where
  fish : Fin 7 → Fish
  seaweed : Fin 4 → Seaweed
  bubbles : Fin 8 → Bubble
  plankton : Fin 6 → Plankton
  octopus : Octopus
  turtle : Turtle
  jellyfish : Jellyfish
  shark : Shark
  seahorse : Seahorse
  crab : Crab
  clam : Clam

/-- `init_fish`: reinitialise a fish slot of the given size; the slot's
`grid_cell` is not written by the C function, hence the old record is
passed in.  Consumes three `rand()` draws (y, direction, speed). -/
def init_fish (g : Nat → Int) (k : Nat) (old : Fish) (size : Int) : Fish × Nat :=
  let y := random_in_range g k 20 119
  let d01 := random_in_range g y.2 0 1
  let dir := d01.1 * 2 - 1
  let sp := if size = 1 then random_in_range g d01.2 2 4 else random_in_range g d01.2 1 2
  ({ old with
      posy := y.1
      direction := dir
      speed := sp.1
      posx := if dir = 1 then -10 else 144
      active := true
      size := size }, sp.2)

/-- `init_bubble`. -/
def init_bubble (g : Nat → Int) (k : Nat) : Bubble × Nat :=
  let x := random_in_range g k 0 143
  let sz := random_in_range g x.2 1 3
  let sp := random_in_range g sz.2 1 3
  ({ posx := x.1, posy := 168, size := sz.1, speed := sp.1, active := true }, sp.2)

/-- `init_plankton`. -/
def init_plankton (g : Nat → Int) (k : Nat) : Plankton × Nat :=
  let x := random_in_range g k 0 143
  let y := random_in_range g x.2 20 139
  let d01 := random_in_range g y.2 0 1
  let sp := random_in_range g d01.2 1 2
  ({ posx := x.1, posy := y.1, direction := d01.1 * 2 - 1, speed := sp.1,
     active := true }, sp.2)

/-- `init_turtle`. -/
def init_turtle (g : Nat → Int) (k : Nat) (old : Turtle) : Turtle × Nat :=
  let y := random_in_range g k 60 119
  let d01 := random_in_range g y.2 0 1
  let dir := d01.1 * 2 - 1
  ({ old with
      posy := y.1
      direction := dir
      posx := if dir = 1 then -15 else 144
      animation_offset := 0
      speed := 1 }, d01.2)

/-- `init_shark`: direction, y position and cooldown timer are random;
the shark starts 30 px off-screen on the side it will enter from, speed 3,
inactive. -/
def init_shark (g : Nat → Int) (k : Nat) (old : Shark) : Shark × Nat :=
  let d01 := random_in_range g k 0 1
  let dir := d01.1 * 2 - 1
  let y := random_in_range g d01.2 50 99
  let t := random_in_range g y.2 150 299
  ({ old with
      direction := dir
      posx := if dir = 1 then -30 else 174
      posy := y.1
      jaw_state := 0
      speed := 3
      active := false
      timer := t.1 }, t.2)

/-- `update_seahorse`: advance the sway phase modulo `TRIG_MAX_ANGLE` and
keep the seahorse active. -/
def update_seahorse (s : Seahorse) : Seahorse :=
  { s with curve_state := Int.tmod (s.curve_state + 1) TRIG_MAX_ANGLE, active := true }

/-- `update_crab`: walk sideways, animate claws modulo 20, bounce at the
screen edges. -/
def update_crab (c : Crab) : Crab :=
  let c1 := { c with
      posx := c.posx + c.direction * c.speed
      claw_state := Int.tmod (c.claw_state + 1) 20 }
  if c1.posx ≤ 15 ∨ 130 ≤ c1.posx then { c1 with direction := c1.direction * (-1) } else c1

/-- `update_clam`: count an open shell down, otherwise rarely open it. -/
def update_clam (g : Nat → Int) (k : Nat) (c : Clam) : Clam × Nat :=
  if 0 < c.open_state then ({ c with open_state := c.open_state - 1 }, k)
  else
    let roll := random_in_range g k 0 399
    if roll.1 = 0 then ({ c with open_state := 40 }, roll.2) else (c, roll.2)

/-- `update_turtle`: linear advance, flipper phase advance modulo
`TRIG_MAX_ANGLE`, then off-screen respawn via `init_turtle`. -/
def update_turtle (g : Nat → Int) (k : Nat) (t : Turtle) : Turtle × Nat :=
  let t1 := { t with
      posx := t.posx + t.direction * t.speed
      animation_offset := Int.tmod (t.animation_offset + t.speed * 200) TRIG_MAX_ANGLE }
  if (t1.direction = 1 ∧ 144 < t1.posx) ∨ (t1.direction = -1 ∧ t1.posx < -15) then
    init_turtle g k t1
  else (t1, k)

/-- `update_jellyfish`: tentacle phase advance modulo `TRIG_MAX_ANGLE`,
pulse cycle modulo 100, an upward nudge at mid-pulse, and a rare random
sidestep clamped to `[10, 134]`. -/
def update_jellyfish (g : Nat → Int) (k : Nat) (j : Jellyfish) : Jellyfish × Nat :=
  let j1 := { j with
      tentacle_offset := Int.tmod (j.tentacle_offset + j.speed * 100) TRIG_MAX_ANGLE
      pulse_state := Int.tmod (j.pulse_state + 1) 100 }
  let j2 :=
    if j1.pulse_state = (50 : Int) then
      { j1 with posy := if j1.posy - 2 < 60 then 60 else j1.posy - 2 }
    else j1
  let roll := random_in_range g k 0 19
  if roll.1 = 0 then
    let dx := random_in_range g roll.2 (-1) 1
    let x := j2.posx + dx.1
    let x1 := if x < 10 then 10 else x
    ({ j2 with posx := if 134 < x1 then 134 else x1 }, dx.2)
  else (j2, roll.2)

/-- `update_octopus`: tentacle phase advance modulo `TRIG_MAX_ANGLE` and a
rare random sidestep clamped to `[10, 134]`. -/
def update_octopus (g : Nat → Int) (k : Nat) (o : Octopus) : Octopus × Nat :=
  let o1 := { o with
      tentacle_offset := Int.tmod (o.tentacle_offset + o.speed * 50) TRIG_MAX_ANGLE }
  let roll := random_in_range g k 0 9
  if roll.1 = 0 then
    let dx := random_in_range g roll.2 (-1) 1
    let x := o1.posx + dx.1
    let x1 := if x < 10 then 10 else x
    ({ o1 with posx := if 134 < x1 then 134 else x1 }, dx.2)
  else (o1, roll.2)

/-- Seaweed sway-phase advance from `animation_update`:
`offset += speed * 100; offset %= TRIG_MAX_ANGLE`. -/
def seaweed_advance (s : Seaweed) : Seaweed :=
  { s with offset := Int.tmod (s.offset + s.speed * 100) TRIG_MAX_ANGLE }

/-- One insertion of `update_spatial_grid`: fish index `i` is appended to
cell `c`'s list only if that cell still has room
(`s_fish_grid_counts[cell] < MAX_FISH + MAX_BIG_FISH`). -/
def grid_insert (cells : Int → List (Fin 7)) (c : Int) (i : Fin 7) : Int → List (Fin 7) :=
  if (cells c).length < MAX_FISH + MAX_BIG_FISH then
    Function.update cells c (cells c ++ [i])
  else cells

/-- The per-cell index lists built by `update_spatial_grid`
(`s_fish_in_grid` together with `s_fish_grid_counts`): every active fish
is placed into the cell of its position, in index order. -/
def grid_cells (fish : Fin 7 → Fish) : Int → List (Fin 7) :=
  (List.finRange 7).foldl
    (fun cs i =>
      if (fish i).active then
        grid_insert cs (get_grid_cell (fish i).posx (fish i).posy) i
      else cs)
    (fun _ => [])

/-- The `s_fish[i].grid_cell = cell` writes of `update_spatial_grid`:
each active fish records the cell of its position. -/
def mark_grid (fish : Fin 7 → Fish) : Fin 7 → Fish := fun i =>
  if (fish i).active then
    { fish i with grid_cell := get_grid_cell (fish i).posx (fish i).posy }
  else fish i

/-- First loop of `animation_update`: each active fish advances by
`direction * speed`; a fish that has crossed the screen is reinitialised
with its own size class. -/
def fish_move_step (g : Nat → Int) (acc : (Fin 7 → Fish) × Nat) (i : Fin 7) :
    (Fin 7 → Fish) × Nat :=
  let f := acc.1
  let k := acc.2
  if (f i).active then
    let moved := { f i with posx := (f i).posx + (f i).direction * (f i).speed }
    if (moved.direction = (1 : Int) ∧ (144 : Int) < moved.posx) ∨
        (moved.direction = (-1 : Int) ∧ moved.posx < (-10 : Int)) then
      let nf := init_fish g k moved (if moved.size = 1 then 1 else 2)
      (Function.update f i nf.1, nf.2)
    else (Function.update f i moved, k)
  else acc

/-- The bounded bubble-spawn loop that marks an eating event: up to three
inactive bubble slots are filled at position `(px, py)`; `hi` is the upper
bound of the random size/speed range (2 for a big-fish kill, 3 for a
shark kill).  If no slot is free nothing happens. -/
def spawn_bubbles (g : Nat → Int) (bs0 : Fin 8 → Bubble) (k0 : Nat) (px py hi : Int) :
    (Fin 8 → Bubble) × Nat :=
  let r := (List.finRange 8).foldl
    (fun (acc : ((Fin 8 → Bubble) × Nat) × Int) b =>
      let bs := acc.1.1
      let k := acc.1.2
      let created := acc.2
      if created < 3 ∧ (bs b).active = false then
        let sz := random_in_range g k 1 hi
        let sp := random_in_range g sz.2 1 hi
        ((Function.update bs b
            { posx := px, posy := py, size := sz.1, speed := sp.1, active := true },
          sp.2), created + 1)
      else acc)
    ((bs0, k0), 0)
  r.1

/-- Innermost loop of the grid-based collision pass: predator `i` is
tested against one registered fish index `j`; a colliding active small
fish below `MAX_FISH` is deactivated and bubbles are spawned at its
position. -/
def collision_prey_step (g : Nat → Int) (i : Fin 7)
    (acc : (Fin 7 → Fish) × (Fin 8 → Bubble) × Nat) (j : Fin 7) :
    (Fin 7 → Fish) × (Fin 8 → Bubble) × Nat :=
  let f := acc.1
  let bs := acc.2.1
  let k := acc.2.2
  if j.val < MAX_FISH ∧ (f j).active = true ∧ (f j).size = 1 then
    if check_collision (f i).posx (f i).posy 7 (f j).posx (f j).posy 4 = true then
      let f1 := Function.update f j { f j with active := false }
      let bs1 := spawn_bubbles g bs k (f j).posx (f j).posy 2
      (f1, bs1.1, bs1.2)
    else acc
  else acc

/-- Per-predator part of the grid-based collision pass: an active big
fish scans its own grid cell and the 8 neighbouring cells (skipping cells
outside the 3x3 grid) and runs `collision_prey_step` on every index
registered there. -/
def collision_pred_step (g : Nat → Int) (cells : Int → List (Fin 7))
    (acc : (Fin 7 → Fish) × (Fin 8 → Bubble) × Nat) (i : Fin 7) :
    (Fin 7 → Fish) × (Fin 8 → Bubble) × Nat :=
  if (acc.1 i).active = true ∧ 1 < (acc.1 i).size then
    let cell := (acc.1 i).grid_cell
    ([-1, 0, 1] : List Int).foldl
      (fun acc1 dy =>
        ([-1, 0, 1] : List Int).foldl
          (fun acc2 dx =>
            let tx := Int.tmod cell GRID_WIDTH + dx
            let ty := Int.tdiv cell GRID_WIDTH + dy
            if 0 ≤ tx ∧ tx < GRID_WIDTH ∧ 0 ≤ ty ∧ ty < GRID_HEIGHT then
              (cells (ty * GRID_WIDTH + tx)).foldl (collision_prey_step g i) acc2
            else acc2)
          acc1)
      acc
  else acc

/-- The whole grid-based predator-prey collision pass of
`animation_update`. -/
def collision_pass (g : Nat → Int) (cells : Int → List (Fin 7)) (f0 : Fin 7 → Fish)
    (bs0 : Fin 8 → Bubble) (k0 : Nat) : (Fin 7 → Fish) × (Fin 8 → Bubble) × Nat :=
  (List.finRange 7).foldl (collision_pred_step g cells) (f0, bs0, k0)

/-- Stochastic small-fish respawn: each inactive slot with index below
`MAX_FISH` is reinitialised (size 1) with 2% probability per tick. -/
def respawn_step (g : Nat → Int) (acc : (Fin 7 → Fish) × Nat) (i : Fin 7) :
    (Fin 7 → Fish) × Nat :=
  let f := acc.1
  let k := acc.2
  if (f i).active = false then
    let roll := random_in_range g k 0 99
    if roll.1 < 2 then
      let nf := init_fish g roll.2 (f i) 1
      (Function.update f i nf.1, nf.2)
    else (f, roll.2)
  else acc

/-- The small-fish slots `0..MAX_FISH-1` scanned by the respawn loop. -/
def smallFishIdx : List (Fin 7) := [0, 1, 2, 3, 4]

/-- Per-bubble update: an active bubble rises by its speed, wobbles
sideways with probability 1/3, and dies above the top edge; an inactive
slot respawns with 1% probability. -/
def bubble_step (g : Nat → Int) (acc : (Fin 8 → Bubble) × Nat) (b : Fin 8) :
    (Fin 8 → Bubble) × Nat :=
  let bs := acc.1
  let k := acc.2
  if (bs b).active = true then
    let b1 := { bs b with posy := (bs b).posy - (bs b).speed }
    let w := random_in_range g k 0 2
    let wk :=
      if w.1 = (0 : Int) then
        let dx := random_in_range g w.2 (-1) 1
        ({ b1 with posx := b1.posx + dx.1 }, dx.2)
      else (b1, w.2)
    let b3 := if wk.1.posy < (0 : Int) then { wk.1 with active := false } else wk.1
    (Function.update bs b b3, wk.2)
  else
    let roll := random_in_range g k 0 199
    if roll.1 < 2 then
      let nb := init_bubble g roll.2
      (Function.update bs b nb.1, nb.2)
    else (bs, roll.2)

/-- Per-plankton update: an active plankton drifts randomly with
probability 1/4 and is clamped into the screen rectangle; an inactive
slot respawns with 1.5% probability. -/
def plankton_step (g : Nat → Int) (acc : (Fin 6 → Plankton) × Nat) (i : Fin 6) :
    (Fin 6 → Plankton) × Nat :=
  let ps := acc.1
  let k := acc.2
  if (ps i).active = true then
    let roll := random_in_range g k 0 3
    let moved :=
      if roll.1 = 0 then
        let dx := random_in_range g roll.2 (-1) 1
        let dy := random_in_range g dx.2 (-1) 1
        ({ ps i with posx := (ps i).posx + dx.1, posy := (ps i).posy + dy.1 }, dy.2)
      else (ps i, roll.2)
    let p1 := moved.1
    let p2 := { p1 with posx := if p1.posx < 0 then 0 else p1.posx }
    let p3 := { p2 with posx := if 144 < p2.posx then 144 else p2.posx }
    let p4 := { p3 with posy := if p3.posy < 0 then 0 else p3.posy }
    let p5 := { p4 with posy := if 168 < p4.posy then 168 else p4.posy }
    (Function.update ps i p5, moved.2)
  else
    let roll := random_in_range g k 0 199
    if roll.1 < 3 then
      let np := init_plankton g roll.2
      (Function.update ps i np.1, np.2)
    else (ps, roll.2)

/-- One iteration of the shark's prey loop: while fewer than two fish
have been eaten this tick, any active fish inside the shark's bite box is
deactivated and marked with up to three bubbles. -/
def shark_eat_step (g : Nat → Int) (sx sy : Int)
    (acc : (Fin 7 → Fish) × (Fin 8 → Bubble) × Int × Nat) (i : Fin 7) :
    (Fin 7 → Fish) × (Fin 8 → Bubble) × Int × Nat :=
  let f := acc.1
  let bs := acc.2.1
  let eaten := acc.2.2.1
  let k := acc.2.2.2
  if eaten < 2 ∧ (f i).active = true then
    if shark_bite sx sy (f i).posx (f i).posy = true then
      let f1 := Function.update f i { f i with active := false }
      let bs1 := spawn_bubbles g bs k (f i).posx (f i).posy 3
      (f1, bs1.1, eaten + 1, bs1.2)
    else acc
  else acc

/-- The shark block of `animation_update`: a roaming shark advances,
eats up to two fish, and goes dormant with a fresh random cooldown once
it has passed the far screen edge; a dormant shark counts its timer down
and re-enters via `init_shark` when the timer reaches zero. -/
def shark_phase (g : Nat → Int) (p : Aquarium × Nat) : Aquarium × Nat :=
  let st := p.1
  let k := p.2
  if st.shark.active = true then
    let s1 := { st.shark with posx := st.shark.posx + st.shark.direction * st.shark.speed }
    let r := (List.finRange 7).foldl (shark_eat_step g s1.posx s1.posy)
      (st.fish, st.bubbles, (0 : Int), k)
    if (s1.direction = (1 : Int) ∧ (174 : Int) < s1.posx) ∨
        (s1.direction = (-1 : Int) ∧ s1.posx < (-30 : Int)) then
      let t := random_in_range g r.2.2.2 200 500
      let s2 := { s1 with active := false, timer := t.1 }
      ({ st with fish := r.1, bubbles := r.2.1, shark := s2 }, t.2)
    else
      ({ st with fish := r.1, bubbles := r.2.1, shark := s1 }, r.2.2.2)
  else
    let s1 := { st.shark with timer := st.shark.timer - 1 }
    if s1.timer ≤ (0 : Int) then
      let s2 := init_shark g k s1
      ({ st with shark := { s2.1 with active := true } }, s2.2)
    else ({ st with shark := s1 }, k)

/-- Phases of `animation_update` up to and including the octopus, in
source order (fish movement, spatial grid rebuild, grid-based collision
pass, small-fish respawn, seaweed, bubbles, plankton, turtle, jellyfish,
octopus), returning the scene and the `rand()` call counter reached. -/
def pre_shark_state (g : Nat → Int) (st : Aquarium) : Aquarium × Nat :=
  let fm := (List.finRange 7).foldl (fish_move_step g) (st.fish, 0)
  let cells := grid_cells fm.1
  let f2 := mark_grid fm.1
  let col := collision_pass g cells f2 st.bubbles fm.2
  let rs := smallFishIdx.foldl (respawn_step g) (col.1, col.2.2)
  let sw := fun i => seaweed_advance (st.seaweed i)
  let bb := (List.finRange 8).foldl (bubble_step g) (col.2.1, rs.2)
  let pl := (List.finRange 6).foldl (plankton_step g) (st.plankton, bb.2)
  let tu := update_turtle g pl.2 st.turtle
  let jf := update_jellyfish g tu.2 st.jellyfish
  let oc := update_octopus g jf.2 st.octopus
  ({ st with
      fish := rs.1, seaweed := sw, bubbles := bb.1, plankton := pl.1,
      turtle := tu.1, jellyfish := jf.1, octopus := oc.1 }, oc.2)

/-- `animation_update` from `main.c`: one full simulation step, phases in
source order (fish movement, spatial grid rebuild, grid-based collision
pass, small-fish respawn, seaweed, bubbles, plankton, turtle, jellyfish,
octopus, shark, seahorse, crab, clam).  `g` is the `rand()` oracle; the
call counter starts at 0 for the step. -/
def animation_update (g : Nat → Int) (st : Aquarium) : Aquarium :=
  let sh := shark_phase g (pre_shark_state g st)
  let cl := update_clam g sh.2 sh.1.clam
  { sh.1 with
      seahorse := update_seahorse sh.1.seahorse
      crab := update_crab sh.1.crab
      clam := cl.1 }

/-- Period selection of `animation_timer_callback`: the next timer
interval is the low-power one exactly when the stored battery level is at
or below `LOW_BATTERY_THRESHOLD` and the watch is not charging. -/
def animation_timer_interval (battery : Int) (charging : Bool) : Int :=
  if battery ≤ LOW_BATTERY_THRESHOLD ∧ charging = false then ANIMATION_INTERVAL_LOW_POWER
  else ANIMATION_INTERVAL

/-- Number of active big fish (slots `MAX_FISH` and above, i.e. 5 and 6). -/
def bigActiveCount (fish : Fin 7 → Fish) : Nat :=
  (if (fish 5).active then 1 else 0) + (if (fish 6).active then 1 else 0)

/-- Predator-prey pair `(i, j)` is flagged by the grid-restricted search
of `animation_update` on a fixed snapshot: `i` is an active big fish, `j`
is an active small fish below `MAX_FISH` registered (by
`update_spatial_grid`, i.e. `grid_cells`/`mark_grid`) in one of the 9
cells around `i`'s recorded cell, and the circle test at radii 7 and 4
reports a collision. -/
def gridFlagged (fish : Fin 7 → Fish) (i j : Fin 7) : Prop :=
  (fish i).active = true ∧ 1 < (fish i).size ∧
  (∃ dy ∈ ([-1, 0, 1] : List Int), ∃ dx ∈ ([-1, 0, 1] : List Int),
    (0 ≤ Int.tmod ((mark_grid fish i).grid_cell) GRID_WIDTH + dx ∧
     Int.tmod ((mark_grid fish i).grid_cell) GRID_WIDTH + dx < GRID_WIDTH ∧
     0 ≤ Int.tdiv ((mark_grid fish i).grid_cell) GRID_WIDTH + dy ∧
     Int.tdiv ((mark_grid fish i).grid_cell) GRID_WIDTH + dy < GRID_HEIGHT) ∧
    j ∈ grid_cells fish
      ((Int.tdiv ((mark_grid fish i).grid_cell) GRID_WIDTH + dy) * GRID_WIDTH +
        (Int.tmod ((mark_grid fish i).grid_cell) GRID_WIDTH + dx))) ∧
  j.val < MAX_FISH ∧ (fish j).active = true ∧ (fish j).size = 1 ∧
  check_collision (fish i).posx (fish i).posy 7 (fish j).posx (fish j).posy 4 = true

/-- Spec-side definition (from the words of the specification): the
exhaustive all-pairs predator-prey circle test over the same snapshot — a
pair is flagged exactly when the predator is an active big fish, the prey
an active small fish below `MAX_FISH`, and the two circles (radii 7 and
4) overlap. -/
def allPairsFlagged_spec (fish : Fin 7 → Fish) (i j : Fin 7) : Prop :=
  (fish i).active = true ∧ 1 < (fish i).size ∧
  j.val < MAX_FISH ∧ (fish j).active = true ∧ (fish j).size = 1 ∧
  check_collision (fish i).posx (fish i).posy 7 (fish j).posx (fish j).posy 4 = true

/-- Derived characterisation of the clamped x coordinate band of
`get_grid_cell`: because of the unparenthesised macro the x band boundary
sits at `3 * 144 = 432` (not 48), so every on-screen x lands in band 0. -/
def gridBandX (x : Int) : Int := if x < 432 then 0 else if x < 864 then 1 else 2

/-- Derived characterisation of the clamped y coordinate band of
`get_grid_cell` (boundary `3 * 168 = 504`). -/
def gridBandY (y : Int) : Int := if y < 504 then 0 else if y < 1008 then 1 else 2

/-- Inert fish slot used in concrete test snapshots. -/
def inactiveFish : Fish :=
  { posx := 0, posy := 0, direction := 1, speed := 1, active := false, size := 1, grid_cell := 0 }

/-- All bubble slots free. -/
def emptyBubbles : Fin 8 → Bubble := fun _ =>
  { posx := 0, posy := 0, size := 1, speed := 1, active := false }

/-- A fully concrete quiet scene: no fish, no bubbles, dormant shark with
a long cooldown, every decorative actor at its initial position.  Used as
the base state for concrete scenario snapshots. -/
def baseAquarium : Aquarium :=
  { fish := fun _ => inactiveFish
    seaweed := fun _ => { basex := 20, basey := 168, offset := 0, speed := 1 }
    bubbles := emptyBubbles
    plankton := fun _ => { posx := 70, posy := 100, direction := 1, speed := 1, active := true }
    octopus := { posx := 72, posy := 25, direction := 1, tentacle_offset := 0, speed := 1 }
    turtle := { posx := 50, posy := 80, direction := 1, animation_offset := 0, speed := 1 }
    jellyfish := { posx := 72, posy := 120, tentacle_offset := 0, pulse_state := 0, speed := 1 }
    shark := { posx := 0, posy := 60, direction := 1, jaw_state := 0, speed := 3,
               active := false, timer := 1000 }
    seahorse := { posx := 20, posy := 140, curve_state := 0, active := true, timer := 0 }
    crab := { posx := 100, posy := 160, direction := -1, claw_state := 0, speed := 1 }
    clam := { posx := 120, posy := 165, open_state := 5 } }

/-- Snapshot for the shark-overlap counterexample: a roaming shark at
(50, 50) with speed 0, a small fish at (69, 61) (inside the bite box but
at squared distance 482 from the shark) and a small fish at (71, 50)
(outside the bite box but at squared distance 441, closer than the
first). -/
def sharkBoxScene : Aquarium :=
  { baseAquarium with
      shark := { posx := 50, posy := 50, direction := 1, jaw_state := 0, speed := 0,
                 active := true, timer := 0 }
      fish := fun idx =>
        if idx = 0 then
          { posx := 69, posy := 61, direction := 1, speed := 0, active := true, size := 1,
            grid_cell := 0 }
        else if idx = 1 then
          { posx := 71, posy := 50, direction := 1, speed := 0, active := true, size := 1,
            grid_cell := 0 }
        else inactiveFish }

/-- Snapshot for the amended overlap claim: one active big fish at
`(px, py)` in slot 5 and one active small fish at `(qx, qy)` in slot 0,
all other slots inactive. -/
def predPreyFish (px py qx qy : Int) : Fin 7 → Fish := fun idx =>
  if idx = 0 then
    { posx := qx, posy := qy, direction := 1, speed := 0, active := true, size := 1,
      grid_cell := 0 }
  else if idx = 5 then
    { posx := px, posy := py, direction := 1, speed := 0, active := true, size := 2,
      grid_cell := 0 }
  else inactiveFish

/-- Scene for the amended shark-overlap claim: a roaming shark at
`(sx, sy)` (speed 0, direction 1) and one active small fish at
`(fx, fy)`. -/
def sharkOverlapScene (sx sy fx fy : Int) : Aquarium :=
  { baseAquarium with
      shark := { posx := sx, posy := sy, direction := 1, jaw_state := 0, speed := 0,
                 active := true, timer := 0 }
      fish := fun idx =>
        if idx = 0 then
          { posx := fx, posy := fy, direction := 1, speed := 0, active := true, size := 1,
            grid_cell := 0 }
        else inactiveFish }

/-- Scene with a dormant shark whose cooldown is about to expire. -/
def dormantSharkScene : Aquarium :=
  { baseAquarium with
      shark := { posx := 0, posy := 60, direction := 1, jaw_state := 0, speed := 3,
                 active := false, timer := 1 } }

/-- Scene with a roaming shark one move away from leaving the screen. -/
def exitingSharkScene : Aquarium :=
  { baseAquarium with
      shark := { posx := 173, posy := 60, direction := 1, jaw_state := 0, speed := 3,
                 active := true, timer := 0 } }

/-- N-fold iteration of `update_jellyfish`, threading the `rand()`
counter. -/
def jellyIter (g : Nat → Int) : Nat → Nat → Jellyfish → Jellyfish × Nat
  | 0, k, j => (j, k)
  | N + 1, k, j => jellyIter g N (update_jellyfish g k j).2 (update_jellyfish g k j).1

/-- N-fold iteration of `update_octopus`, threading the `rand()`
counter. -/
def octoIter (g : Nat → Int) : Nat → Nat → Octopus → Octopus × Nat
  | 0, k, o => (o, k)
  | N + 1, k, o => octoIter g N (update_octopus g k o).2 (update_octopus g k o).1

/-- Turtle stuck at the screen-cross reset used in the C8
counterexample. -/
def crossingTurtle : Turtle :=
  { posx := 144, posy := 80, direction := 1, animation_offset := 100, speed := 1 }

/-- Scene for the prey-consumption scenario: prey (small, slot 0) at
(52, 51), predator (big, slot 5) at (50, 50), three more active small
fish far away, second big slot inactive, all bubble slots free, speeds 0
so the movement phase is inert. -/
def preyScene : Aquarium :=
  { baseAquarium with
      fish := fun idx =>
        if idx = 0 then
          { posx := 52, posy := 51, direction := 1, speed := 0, active := true, size := 1,
            grid_cell := 0 }
        else if idx.val ≤ 4 then
          { posx := 100, posy := 100, direction := 1, speed := 0, active := true, size := 1,
            grid_cell := 0 }
        else if idx = 5 then
          { posx := 50, posy := 50, direction := 1, speed := 0, active := true, size := 2,
            grid_cell := 0 }
        else inactiveFish }

/-- Fish-movement fold of the prey scenario: every speed is 0, so the
pool is unchanged and no draw is consumed. -/
def preyMove (g : Nat → Int) : (Fin 7 → Fish) × Nat :=
  (List.finRange 7).foldl (fish_move_step g) (preyScene.fish, 0)

/-- Grid cell lists of the prey scenario: every on-screen fish sits in
cell 0 (the unparenthesised cell-size macros put the band edges at
432/504, far off screen). -/
def preyCells : Int → List (Fin 7) := fun c => if c = 0 then [0, 1, 2, 3, 4, 5] else []

/-- The prey-scenario pool right after the spatial-grid marking. -/
def preyMarked : Fin 7 → Fish := fun idx =>
  if idx = 0 then
    { posx := 52, posy := 51, direction := 1, speed := 0, active := true, size := 1,
      grid_cell := 0 }
  else if idx.val ≤ 4 then
    { posx := 100, posy := 100, direction := 1, speed := 0, active := true, size := 1,
      grid_cell := 0 }
  else if idx = 5 then
    { posx := 50, posy := 50, direction := 1, speed := 0, active := true, size := 2,
      grid_cell := 0 }
  else inactiveFish

/-- The collision pass of the prey scenario, exactly as `animation_update`
invokes it. -/
def preyCollision (g : Nat → Int) : (Fin 7 → Fish) × (Fin 8 → Bubble) × Nat :=
  collision_pass g (grid_cells (preyMove g).1) (mark_grid (preyMove g).1)
    preyScene.bubbles (preyMove g).2

/-- Expected fish pool after the collision pass: the prey (slot 0) was
eaten by the big fish in slot 5. -/
def fishAfterCollision : Fin 7 → Fish := fun idx =>
  if idx = 0 then
    { posx := 52, posy := 51, direction := 1, speed := 0, active := false, size := 1,
      grid_cell := 0 }
  else preyMarked idx

/-- Expected bubble pool after the collision pass: three marker bubbles
at the prey position (52, 51), sizes and speeds drawn from the first six
oracle values. -/
def bubblesAfterCollision (g : Nat → Int) : Fin 8 → Bubble := fun b =>
  if b = 0 then
    { posx := 52, posy := 51, size := 1 + Int.tmod (g 0) 2, speed := 1 + Int.tmod (g 1) 2,
      active := true }
  else if b = 1 then
    { posx := 52, posy := 51, size := 1 + Int.tmod (g 2) 2, speed := 1 + Int.tmod (g 3) 2,
      active := true }
  else if b = 2 then
    { posx := 52, posy := 51, size := 1 + Int.tmod (g 4) 2, speed := 1 + Int.tmod (g 5) 2,
      active := true }
  else { posx := 0, posy := 0, size := 1, speed := 1, active := false }

/-- A bubble pool with every slot occupied (for the drop-when-full part
of the spawn property). -/
def fullBubblePool : Fin 8 → Bubble := fun _ =>
  { posx := 10, posy := 20, size := 1, speed := 1, active := true }

/-- Bounds for a drawn sample: with a nonnegative oracle value and
`mn ≤ mx`, `random_in_range` lands in `[mn, mx]`. -/
theorem random_in_range_mem (g : Nat → Int) (k : Nat) (mn mx : Int)
    (hg : 0 ≤ g k) (h : mn ≤ mx) :
    mn ≤ (random_in_range g k mn mx).1 ∧ (random_in_range g k mn mx).1 ≤ mx := by
  by_cases h1 : mx ≤ mn
  · simp only [random_in_range, if_pos h1]
    exact ⟨le_rfl, h⟩
  · have hpos : (0 : Int) < mx - mn + 1 := by omega
    have h2 : ¬(mx - mn + 1 ≤ 0) := by omega
    have hlo := Int.tmod_nonneg (mx - mn + 1) hg
    have hhi := Int.tmod_lt_of_pos (g k) hpos
    simp only [random_in_range, if_neg h1, if_neg h2]
    constructor <;> omega

/-- `wrap32` is the identity on representable 32-bit values. -/
theorem wrap32_eq_self (v : Int) (h1 : -2 ^ 31 ≤ v) (h2 : v < 2 ^ 31) : wrap32 v = v := by
  unfold wrap32
  omega

/-- C2: `check_collision` is symmetric; it returns `true` exactly when
the squared centre distance is at most the squared radius sum; at exact
distance `r1 + r2` along an axis it reports a collision, and at distance
`r1 + r2 + 1` it does not. -/
theorem C2_check_collision_correct :
    (∀ x1 y1 r1 x2 y2 r2 : Int,
        check_collision x1 y1 r1 x2 y2 r2 = check_collision x2 y2 r2 x1 y1 r1)
    ∧ (∀ x1 y1 r1 x2 y2 r2 : Int,
        check_collision x1 y1 r1 x2 y2 r2 = true ↔
          (x1 - x2) * (x1 - x2) + (y1 - y2) * (y1 - y2) ≤ (r1 + r2) * (r1 + r2))
    ∧ (∀ x y r1 r2 : Int, 0 ≤ r1 + r2 →
        check_collision x y r1 (x + (r1 + r2)) y r2 = true)
    ∧ (∀ x y r1 r2 : Int, 0 ≤ r1 + r2 →
        check_collision x y r1 (x + (r1 + r2 + 1)) y r2 = false) := by
  refine ⟨?_, ?_, ?_, ?_⟩
  · intro x1 y1 r1 x2 y2 r2
    simp only [check_collision, decide_eq_decide]
    constructor <;> intro h <;> nlinarith [h]
  · intro x1 y1 r1 x2 y2 r2
    simp [check_collision]
  · intro x y r1 r2 h
    simp only [check_collision, decide_eq_true_eq]
    ring_nf
    nlinarith [h]
  · intro x y r1 r2 h
    simp only [check_collision, decide_eq_false_iff_not]
    intro hc
    nlinarith [hc]

/-- C2 witness: concrete boundary instances (radii 7 and 4, distance 11
collides, distance 12 does not). -/
theorem C2_check_collision_correct_witness :
    check_collision 0 0 7 (0 + (7 + 4)) 0 4 = true ∧
    check_collision 0 0 7 (0 + (7 + 4 + 1)) 0 4 = false :=
  ⟨C2_check_collision_correct.2.2.1 0 0 7 4 (by decide),
   C2_check_collision_correct.2.2.2 0 0 7 4 (by decide)⟩

/-- C3: for representable 32-bit `min <= max` the sampler (modelled with
full 32-bit wrap-around arithmetic, so overflow behaviour is explicit)
returns a value in `[min, max]`; for `max < min` it returns `min`; and
whenever the range size fits in a 32-bit `int` no wrap occurs at all, the
result agreeing with the exact-integer model `random_in_range` — the
`range <= 0` guard absorbs every overflowing case. -/
theorem C3_random_in_range_bounds :
    ∀ r mn mx : Int, 0 ≤ r →
      -2 ^ 31 ≤ mn → mn < 2 ^ 31 → -2 ^ 31 ≤ mx → mx < 2 ^ 31 →
      (mn ≤ mx → mn ≤ random_in_range32 r mn mx ∧ random_in_range32 r mn mx ≤ mx)
      ∧ (mx < mn → random_in_range32 r mn mx = mn)
      ∧ (mx - mn + 1 < 2 ^ 31 →
          random_in_range32 r mn mx = (random_in_range (fun _ => r) 0 mn mx).1) := by
  intro r mn mx hr hmn1 hmn2 hmx1 hmx2
  refine ⟨?_, ?_, ?_⟩
  · intro hle
    by_cases h1 : mx ≤ mn
    · simp only [random_in_range32, if_pos h1]
      omega
    · simp only [random_in_range32, if_neg h1]
      set w1 := wrap32 (mx - mn) with hw1def
      set range := wrap32 (w1 + 1) with hrdef
      have hb1 : w1 = mx - mn ∨ w1 = mx - mn - 2 ^ 32 := by
        rw [hw1def]; unfold wrap32; omega
      have hb2 : range = w1 + 1 ∨ range = w1 + 1 - 2 ^ 32 ∨ range = w1 + 1 + 2 ^ 32 := by
        rw [hrdef]; unfold wrap32; omega
      have hb3 : -2 ^ 31 ≤ range ∧ range < 2 ^ 31 := by
        rw [hrdef]; unfold wrap32; omega
      split_ifs with h2
      · omega
      · have hpos : 0 < range := by omega
        have hle2 : range ≤ mx - mn + 1 := by omega
        have hlo := Int.tmod_nonneg range hr
        have hhi := Int.tmod_lt_of_pos r hpos
        rw [wrap32_eq_self _ (by omega) (by omega)]
        omega
  · intro hlt
    simp only [random_in_range32, if_pos (by omega : mx ≤ mn)]
  · intro hfit
    by_cases h1 : mx ≤ mn
    · simp only [random_in_range32, random_in_range, if_pos h1]
    · have hw : wrap32 (wrap32 (mx - mn) + 1) = mx - mn + 1 := by
        rw [wrap32_eq_self (mx - mn) (by omega) (by omega)]
        exact wrap32_eq_self _ (by omega) (by omega)
      have h2 : ¬(mx - mn + 1 ≤ 0) := by omega
      simp only [random_in_range32, random_in_range, if_neg h1, hw, if_neg h2]
      have hpos : (0 : Int) < mx - mn + 1 := by omega
      have hlo := Int.tmod_nonneg (mx - mn + 1) hr
      have hhi := Int.tmod_lt_of_pos r hpos
      exact wrap32_eq_self _ (by omega) (by omega)

/-- C3 witness: a concrete in-range call, `sample(3, 9)` with draw 20. -/
theorem C3_random_in_range_bounds_witness :
    (3 ≤ random_in_range32 20 3 9 ∧ random_in_range32 20 3 9 ≤ 9) ∧
    random_in_range32 0 9 3 = 9 :=
  ⟨(C3_random_in_range_bounds 20 3 9 (by decide) (by decide) (by decide)
      (by decide) (by decide)).1 (by decide),
   (C3_random_in_range_bounds 0 9 3 (by decide) (by decide) (by decide)
      (by decide) (by decide)).2.1 (by decide)⟩

/-- C7: with the stored battery level at or below the threshold (20) and
not charging, the re-armed timer period is the low-power constant
(100 ms), not the nominal one (50 ms); in particular at battery 15 and
not charging. -/
theorem C7_low_power_interval :
    (∀ b : Int, b ≤ LOW_BATTERY_THRESHOLD →
        animation_timer_interval b false = ANIMATION_INTERVAL_LOW_POWER)
    ∧ animation_timer_interval 15 false = ANIMATION_INTERVAL_LOW_POWER
    ∧ ANIMATION_INTERVAL_LOW_POWER = 100 ∧ ANIMATION_INTERVAL = 50
    ∧ ANIMATION_INTERVAL_LOW_POWER ≠ ANIMATION_INTERVAL := by
  refine ⟨?_, by decide, by decide, by decide, by decide⟩
  intro b hb
  unfold animation_timer_interval
  rw [if_pos ⟨hb, rfl⟩]

/-- C7 witness: battery 15, not charging, yields the 100 ms period. -/
theorem C7_low_power_interval_witness :
    animation_timer_interval 15 false = ANIMATION_INTERVAL_LOW_POWER :=
  C7_low_power_interval.1 15 (by decide)

/-- A truncating division of a nonpositive value by a positive constant is
nonpositive, twice over for the nested division of `get_grid_cell`. -/
theorem tdiv_tdiv_nonpos {x : Int} (h : x < 0) (c : Int) (hc : 0 ≤ c) :
    Int.tdiv (Int.tdiv x c) 3 ≤ 0 := by
  have h2 := Int.tdiv_nonneg (a := -x) (b := c) (by omega) hc
  rw [Int.neg_tdiv] at h2
  have h3 := Int.tdiv_nonneg (a := -(Int.tdiv x c)) (b := 3) (by omega) (by norm_num)
  rw [Int.neg_tdiv] at h3
  omega

/-- For nonnegative values the nested truncating division agrees with the
Euclidean one. -/
theorem tdiv_tdiv_nonneg {x : Int} (h : 0 ≤ x) (c : Int) (hc : 0 < c) :
    Int.tdiv (Int.tdiv x c) 3 = (x / c) / 3 := by
  rw [Int.tdiv_eq_ediv h (by omega),
    Int.tdiv_eq_ediv (Int.ediv_nonneg h (by omega)) (by norm_num)]

set_option maxHeartbeats 1000000 in
/-- `get_grid_cell` computes the row/column band pair. -/
theorem get_grid_cell_char (x y : Int) :
    get_grid_cell x y = gridBandY y * 3 + gridBandX x := by
  have hx : Int.tdiv (Int.tdiv x 144) 3 = (x / 144) / 3 ∨
      (x < 0 ∧ Int.tdiv (Int.tdiv x 144) 3 ≤ 0) := by
    rcases le_or_lt 0 x with h | h
    · exact Or.inl (tdiv_tdiv_nonneg h 144 (by norm_num))
    · exact Or.inr ⟨h, tdiv_tdiv_nonpos h 144 (by norm_num)⟩
  have hy : Int.tdiv (Int.tdiv y 168) 3 = (y / 168) / 3 ∨
      (y < 0 ∧ Int.tdiv (Int.tdiv y 168) 3 ≤ 0) := by
    rcases le_or_lt 0 y with h | h
    · exact Or.inl (tdiv_tdiv_nonneg h 168 (by norm_num))
    · exact Or.inr ⟨h, tdiv_tdiv_nonpos h 168 (by norm_num)⟩
  simp only [get_grid_cell, GRID_WIDTH, GRID_HEIGHT, gridBandX, gridBandY]
  rcases hx with hx | ⟨hxneg, hx⟩ <;> rcases hy with hy | ⟨hyneg, hy⟩
  · rw [hx, hy]; split_ifs <;> omega
  · rw [hx]; split_ifs <;> omega
  · rw [hy]; split_ifs <;> omega
  · split_ifs <;> omega

/-- The x band is one of 0, 1, 2. -/
theorem gridBandX_bounds (x : Int) : 0 ≤ gridBandX x ∧ gridBandX x < 3 := by
  unfold gridBandX; split_ifs <;> omega

/-- The y band is one of 0, 1, 2. -/
theorem gridBandY_bounds (y : Int) : 0 ≤ gridBandY y ∧ gridBandY y < 3 := by
  unfold gridBandY; split_ifs <;> omega

/-- Points at most 11 apart horizontally sit in the same or an adjacent
x band (band widths are at least 432). -/
theorem gridBandX_near {x1 x2 : Int} (h1 : -11 ≤ x1 - x2) (h2 : x1 - x2 ≤ 11) :
    gridBandX x2 - gridBandX x1 = -1 ∨ gridBandX x2 - gridBandX x1 = 0 ∨
      gridBandX x2 - gridBandX x1 = 1 := by
  unfold gridBandX; split_ifs <;> omega

/-- Points at most 11 apart vertically sit in the same or an adjacent
y band. -/
theorem gridBandY_near {y1 y2 : Int} (h1 : -11 ≤ y1 - y2) (h2 : y1 - y2 ≤ 11) :
    gridBandY y2 - gridBandY y1 = -1 ∨ gridBandY y2 - gridBandY y1 = 0 ∨
      gridBandY y2 - gridBandY y1 = 1 := by
  unfold gridBandY; split_ifs <;> omega

/-- Recovering row and column from a cell index, as the collision pass
does with `cell % GRID_WIDTH` and `cell / GRID_WIDTH`. -/
theorem cell_decode {gx gy : Int} (h1 : 0 ≤ gx) (h2 : gx < 3) (h3 : 0 ≤ gy) (h4 : gy < 3) :
    Int.tmod (gy * 3 + gx) 3 = gx ∧ Int.tdiv (gy * 3 + gx) 3 = gy := by
  interval_cases gx <;> interval_cases gy <;> exact ⟨by decide, by decide⟩

/-- Generic fold invariant. -/
theorem foldl_inv {α β : Type} (P : α → Prop) (f : α → β → α) (l : List β) (s : α)
    (hstep : ∀ s b, P s → P (f s b)) (h0 : P s) : P (l.foldl f s) := by
  induction l generalizing s with
  | nil => exact h0
  | cons a t ih => exact ih _ (hstep _ _ h0)

/-- As long as the slack invariant of `update_spatial_grid` holds (cells
can still absorb every remaining fish), the capped fold builds exactly
the filtered index lists. -/
theorem grid_cells_fold (fish : Fin 7 → Fish) (l : List (Fin 7)) (cs : Int → List (Fin 7))
    (hcs : ∀ c, (cs c).length + l.length ≤ MAX_FISH + MAX_BIG_FISH) :
    l.foldl
      (fun cs i =>
        if (fish i).active then
          grid_insert cs (get_grid_cell (fish i).posx (fish i).posy) i
        else cs) cs
    = fun c => cs c ++ l.filter
        (fun i => (fish i).active &&
          decide (get_grid_cell (fish i).posx (fish i).posy = c)) := by
  induction l generalizing cs with
  | nil => funext c; simp
  | cons a t ih =>
    simp only [List.foldl_cons, List.filter_cons]
    by_cases ha : (fish a).active
    · rw [if_pos ha]
      have hroom : (cs (get_grid_cell (fish a).posx (fish a).posy)).length <
          MAX_FISH + MAX_BIG_FISH := by
        have := hcs (get_grid_cell (fish a).posx (fish a).posy)
        simp only [List.length_cons] at this
        omega
      have hlen : ∀ c,
          ((grid_insert cs (get_grid_cell (fish a).posx (fish a).posy) a) c).length +
            t.length ≤ MAX_FISH + MAX_BIG_FISH := by
        intro c
        have := hcs c
        simp only [List.length_cons] at this
        unfold grid_insert
        rw [if_pos hroom]
        rcases eq_or_ne c (get_grid_cell (fish a).posx (fish a).posy) with hc | hc
        · subst hc
          rw [Function.update_same]
          simp only [List.length_append, List.length_singleton]
          omega
        · rw [Function.update_noteq hc]
          omega
      rw [ih _ hlen]
      funext c
      unfold grid_insert
      rw [if_pos hroom]
      rcases eq_or_ne (get_grid_cell (fish a).posx (fish a).posy) c with hc | hc
      · rw [hc, Function.update_same]
        simp [List.append_assoc]
        rw [if_pos ha]
      · rw [Function.update_noteq (fun h => hc h.symm)]
        simp [hc]
    · rw [if_neg ha]
      rw [ih _ (by intro c; have := hcs c; simp only [List.length_cons] at this; omega)]
      funext c
      simp [ha]

/-- The per-cell lists of `update_spatial_grid`: the capacity cap never
bites (there are only 7 fish in total), so cell `c` holds exactly the
active fish whose position maps to `c`, in index order. -/
theorem grid_cells_eq (fish : Fin 7 → Fish) :
    grid_cells fish = fun c =>
      (List.finRange 7).filter
        (fun i => (fish i).active &&
          decide (get_grid_cell (fish i).posx (fish i).posy = c)) := by
  unfold grid_cells
  rw [grid_cells_fold fish (List.finRange 7) (fun _ => []) (by intro c; simp [MAX_FISH, MAX_BIG_FISH])]
  funext c
  simp

/-- Membership in a grid cell list. -/
theorem mem_grid_cells {fish : Fin 7 → Fish} {j : Fin 7} {c : Int} :
    j ∈ grid_cells fish c ↔
      (fish j).active = true ∧ get_grid_cell (fish j).posx (fish j).posy = c := by
  rw [grid_cells_eq]
  simp [List.mem_filter]

/-- C10: `get_grid_cell` always returns a cell index in
`[0, GRID_CELL_COUNT)` for arbitrary integer coordinates, so
`update_spatial_grid` writes only inside the grid arrays: every per-cell
count is at most `MAX_FISH + MAX_BIG_FISH` and every stored index is a
valid fish-array index. -/
theorem C10_grid_bounds :
    (∀ x y : Int, 0 ≤ get_grid_cell x y ∧ get_grid_cell x y < GRID_CELL_COUNT)
    ∧ (∀ fish : Fin 7 → Fish, ∀ c : Int,
        (grid_cells fish c).length ≤ MAX_FISH + MAX_BIG_FISH)
    ∧ (∀ fish : Fin 7 → Fish, ∀ c : Int,
        (grid_cells fish c).all (fun j => decide (j.val < MAX_FISH + MAX_BIG_FISH)) = true) := by
  refine ⟨?_, ?_, ?_⟩
  · intro x y
    rw [get_grid_cell_char]
    have h1 := gridBandX_bounds x
    have h2 := gridBandY_bounds y
    unfold GRID_CELL_COUNT GRID_WIDTH GRID_HEIGHT
    constructor <;> omega
  · intro fish c
    rw [grid_cells_eq]
    have h := List.length_filter_le
      (fun i => (fish i).active && decide (get_grid_cell (fish i).posx (fish i).posy = c))
      (List.finRange 7)
    simpa [MAX_FISH, MAX_BIG_FISH] using h
  · intro fish c
    rw [List.all_eq_true]
    intro j hj
    simp [MAX_FISH, MAX_BIG_FISH]

/-- C1: on every snapshot of the fish pool, the grid-restricted
predator-prey search flags exactly the pairs flagged by the exhaustive
all-pairs circle test.  (Because of the macro expansion in
`get_grid_cell`, band boundaries sit at 432/864 horizontally and 504/1008
vertically; bands are far wider than the collision radius 11, so
colliding fish always sit in the same or adjacent cells, and the per-cell
capacity can never overflow with 7 fish.) -/
theorem C1_grid_equivalence :
    ∀ fish : Fin 7 → Fish, ∀ i j : Fin 7,
      gridFlagged fish i j ↔ allPairsFlagged_spec fish i j := by
  intro fish i j
  constructor
  · rintro ⟨hai, hsi, -, hj5, haj, hsj, hcol⟩
    exact ⟨hai, hsi, hj5, haj, hsj, hcol⟩
  · rintro ⟨hai, hsi, hj5, haj, hsj, hcol⟩
    refine ⟨hai, hsi, ?_, hj5, haj, hsj, hcol⟩
    have hcol2 : ((fish i).posx - (fish j).posx) * ((fish i).posx - (fish j).posx) +
        ((fish i).posy - (fish j).posy) * ((fish i).posy - (fish j).posy) ≤ 121 := by
      have h := hcol
      simp only [check_collision, decide_eq_true_eq] at h
      omega
    have hdxb : -11 ≤ (fish i).posx - (fish j).posx ∧ (fish i).posx - (fish j).posx ≤ 11 := by
      constructor <;>
        nlinarith [mul_self_nonneg ((fish i).posy - (fish j).posy),
          mul_self_nonneg ((fish i).posx - (fish j).posx)]
    have hdyb : -11 ≤ (fish i).posy - (fish j).posy ∧ (fish i).posy - (fish j).posy ≤ 11 := by
      constructor <;>
        nlinarith [mul_self_nonneg ((fish i).posy - (fish j).posy),
          mul_self_nonneg ((fish i).posx - (fish j).posx)]
    have hxnear := gridBandX_near hdxb.1 hdxb.2
    have hynear := gridBandY_near hdyb.1 hdyb.2
    have hxi := gridBandX_bounds (fish i).posx
    have hyi := gridBandY_bounds (fish i).posy
    have hxj := gridBandX_bounds (fish j).posx
    have hyj := gridBandY_bounds (fish j).posy
    have hcelli : (mark_grid fish i).grid_cell =
        gridBandY (fish i).posy * 3 + gridBandX (fish i).posx := by
      simp [mark_grid, hai, get_grid_cell_char]
    have hdec := cell_decode hxi.1 hxi.2 hyi.1 hyi.2
    refine ⟨gridBandY (fish j).posy - gridBandY (fish i).posy, ?_,
      gridBandX (fish j).posx - gridBandX (fish i).posx, ?_, ?_, ?_⟩
    · rcases hynear with h | h | h <;> rw [h] <;> simp
    · rcases hxnear with h | h | h <;> rw [h] <;> simp
    · rw [hcelli]
      unfold GRID_WIDTH GRID_HEIGHT
      rw [hdec.1, hdec.2]
      refine ⟨by omega, by omega, by omega, by omega⟩
    · rw [hcelli]
      unfold GRID_WIDTH
      rw [hdec.1, hdec.2]
      have harith : (gridBandY (fish i).posy +
            (gridBandY (fish j).posy - gridBandY (fish i).posy)) * 3 +
          (gridBandX (fish i).posx +
            (gridBandX (fish j).posx - gridBandX (fish i).posx)) =
          gridBandY (fish j).posy * 3 + gridBandX (fish j).posx := by ring
      rw [harith, mem_grid_cells]
      exact ⟨haj, (get_grid_cell_char (fish j).posx (fish j).posy).symm ▸ rfl⟩

set_option maxRecDepth 100000 in
/-- C4 counterexample: in one simulation step the shark eats the fish at
squared distance 482 and spares the strictly closer fish at squared
distance 441, so its overlap decision is not a squared-distance test
against any radius sum — and in particular not the circle test with the
radii (7 and 4) used elsewhere, which rejects the eaten fish. -/
theorem C4_counterexample :
    ((animation_update (fun _ => 5) sharkBoxScene).fish 0).active = false ∧
    ((animation_update (fun _ => 5) sharkBoxScene).fish 1).active = true ∧
    ((50 : Int) - 71) * (50 - 71) + (50 - 50) * (50 - 50) <
      (50 - 69) * (50 - 69) + (50 - 61) * (50 - 61) ∧
    check_collision 50 50 7 69 61 4 = false ∧
    shark_bite 50 50 69 61 = true := by decide

/-- Every point left of 432 and above 504 (in particular every on-screen
point) lands in grid cell 0: the macro expansion makes the band
boundaries 432 and 504, far beyond the 144x168 screen. -/
theorem get_grid_cell_zero {x y : Int} (hx : x < 432) (hy : y < 504) :
    get_grid_cell x y = 0 := by
  rw [get_grid_cell_char]
  unfold gridBandX gridBandY
  rw [if_pos hx, if_pos hy]
  ring

/-- Literal form of the fish index list. -/
theorem finRange7 : List.finRange 7 = [0, 1, 2, 3, 4, 5, 6] := by decide

/-- Literal form of the bubble index list. -/
theorem finRange8 : List.finRange 8 = [0, 1, 2, 3, 4, 5, 6, 7] := by decide

theorem predPrey_cells (px py qx qy : Int) (hpx : px < 432) (hpy : py < 504)
    (hqx : qx < 432) (hqy : qy < 504) :
    grid_cells (predPreyFish px py qx qy) 0 = [0, 5] ∧
    grid_cells (predPreyFish px py qx qy) 1 = [] ∧
    grid_cells (predPreyFish px py qx qy) 3 = [] ∧
    grid_cells (predPreyFish px py qx qy) 4 = [] := by
  have hq := get_grid_cell_zero hqx hqy
  have hp := get_grid_cell_zero hpx hpy
  refine ⟨?_, ?_, ?_, ?_⟩ <;>
    simp [grid_cells_eq, finRange7, predPreyFish, inactiveFish, hq, hp, List.filter]

theorem collision_pass_two_fish (px py qx qy : Int) (hpx : px < 432) (hpy : py < 504)
    (hqx : qx < 432) (hqy : qy < 504) (g : Nat → Int) :
    ((collision_pass g (grid_cells (predPreyFish px py qx qy))
        (mark_grid (predPreyFish px py qx qy)) emptyBubbles 0).1 0).active
      = !check_collision px py 7 qx qy 4 := by
  have hq := get_grid_cell_zero hqx hqy
  have hp := get_grid_cell_zero hpx hpy
  obtain ⟨h0, h1, h3, h4⟩ := predPrey_cells px py qx qy hpx hpy hqx hqy
  cases hc : check_collision px py 7 qx qy 4 <;>
    simp [collision_pass, collision_pred_step, collision_prey_step, spawn_bubbles,
      finRange7, mark_grid, predPreyFish, inactiveFish, hp, hq, h0, h1, h3, h4, hc,
      GRID_WIDTH, GRID_HEIGHT, MAX_FISH, Function.update_apply]

theorem shark_phase_one_fish (sx sy fx fy : Int) (hsx : sx ≤ 174) (g : Nat → Int) :
    ((shark_phase g (sharkOverlapScene sx sy fx fy, 0)).1.fish 0).active
      = !shark_bite sx sy fx fy := by
  have hs2 : ¬((174 : Int) < sx) := by omega
  cases hb : shark_bite sx sy fx fy <;>
    simp [shark_phase, shark_eat_step, spawn_bubbles, sharkOverlapScene, baseAquarium,
      inactiveFish, emptyBubbles, finRange7, finRange8, hb, hs2, Function.update_apply]

/-- C4 (amended): in the simulation step a big fish decides overlap with
an eligible smaller prey by the circular test `check_collision` at radii
7 and 4 (shown here on the collision pass over a predator/prey snapshot),
but the singleton shark does not use a circular test: it eats exactly the
fish inside the axis-aligned box `abs(dx) < 20 && abs(dy) < 12`
(`shark_bite`). -/
theorem C4_amended :
    (∀ px py qx qy : Int, px < 432 → py < 504 → qx < 432 → qy < 504 → ∀ g : Nat → Int,
        (((collision_pass g (grid_cells (predPreyFish px py qx qy))
            (mark_grid (predPreyFish px py qx qy)) emptyBubbles 0).1 0).active = false
          ↔ check_collision px py 7 qx qy 4 = true))
    ∧ (∀ sx sy fx fy : Int, sx ≤ 174 → ∀ g : Nat → Int,
        (((shark_phase g (sharkOverlapScene sx sy fx fy, 0)).1.fish 0).active = false
          ↔ shark_bite sx sy fx fy = true)) := by
  constructor
  · intro px py qx qy hpx hpy hqx hqy g
    rw [collision_pass_two_fish px py qx qy hpx hpy hqx hqy g]
    cases check_collision px py 7 qx qy 4 <;> simp
  · intro sx sy fx fy hsx g
    rw [shark_phase_one_fish sx sy fx fy hsx g]
    cases shark_bite sx sy fx fy <;> simp

/-- C4 amended witness: the big fish at (50, 50) eats the prey at
(52, 51) (circle test holds), the shark at (50, 50) eats the fish at
(60, 55) (bite box holds). -/
theorem C4_amended_witness :
    ((collision_pass (fun _ => 5) (grid_cells (predPreyFish 50 50 52 51))
        (mark_grid (predPreyFish 50 50 52 51)) emptyBubbles 0).1 0).active = false ∧
    ((shark_phase (fun _ => 5) (sharkOverlapScene 50 50 60 55, 0)).1.fish 0).active = false :=
  ⟨(C4_amended.1 50 50 52 51 (by decide) (by decide) (by decide) (by decide)
      (fun _ => 5)).mpr (by decide),
   (C4_amended.2 50 50 60 55 (by decide) (fun _ => 5)).mpr (by decide)⟩

theorem pre_shark_state_shark (g : Nat → Int) (st : Aquarium) :
    (pre_shark_state g st).1.shark = st.shark := rfl

theorem animation_update_shark (g : Nat → Int) (st : Aquarium) :
    (animation_update g st).shark = (shark_phase g (pre_shark_state g st)).1.shark := rfl

theorem shark_phase_shark_dormant (g : Nat → Int) (p : Aquarium × Nat)
    (h1 : p.1.shark.active = false) (h2 : p.1.shark.timer = 1) (hg : ∀ n, 0 ≤ g n) :
    (shark_phase g p).1.shark.active = true ∧
    ((shark_phase g p).1.shark.direction = 1 ∧ (shark_phase g p).1.shark.posx = -30 ∨
     (shark_phase g p).1.shark.direction = -1 ∧ (shark_phase g p).1.shark.posx = 174) ∧
    (50 ≤ (shark_phase g p).1.shark.posy ∧ (shark_phase g p).1.shark.posy ≤ 99) := by
  have htm : Int.tmod (g p.2) 2 = 0 ∨ Int.tmod (g p.2) 2 = 1 := by
    have ha := Int.tmod_nonneg 2 (hg p.2)
    have hb := Int.tmod_lt_of_pos (g p.2) (b := 2) (by norm_num)
    omega
  have hy1 := Int.tmod_nonneg 50 (hg (p.2 + 1))
  have hy2 := Int.tmod_lt_of_pos (g (p.2 + 1)) (b := 50) (by norm_num)
  simp only [shark_phase, h1, h2, init_shark, random_in_range]
  norm_num
  rcases htm with h | h <;> simp [h] <;> omega

theorem shark_phase_shark_exit (g : Nat → Int) (p : Aquarium × Nat)
    (h1 : p.1.shark.active = true)
    (h2 : (p.1.shark.direction = 1 ∧
            174 < p.1.shark.posx + p.1.shark.direction * p.1.shark.speed) ∨
          (p.1.shark.direction = -1 ∧
            p.1.shark.posx + p.1.shark.direction * p.1.shark.speed < -30))
    (hg : ∀ n, 0 ≤ g n) :
    (shark_phase g p).1.shark.active = false ∧
    200 ≤ (shark_phase g p).1.shark.timer ∧ (shark_phase g p).1.shark.timer ≤ 500 := by
  have key : ∀ n : Nat, 0 ≤ Int.tmod (g n) 301 ∧ 200 + Int.tmod (g n) 301 ≤ 500 :=
    fun n => ⟨Int.tmod_nonneg 301 (hg n),
      by have := Int.tmod_lt_of_pos (g n) (b := 301) (by norm_num); omega⟩
  simp only [shark_phase, h1, random_in_range]
  rw [if_pos h2]
  norm_num
  exact ⟨(key _).1, (key _).2⟩

/-- C6: the singleton shark lives in the two-state dormant/roaming cycle:
a step taken with the shark inactive and `timer = 1` leaves it active and
placed just off the entry edge matching its freshly drawn direction
(`x = -30` for direction 1, `x = 174` for direction -1, `y` in
`[50, 99]`); a step in which a roaming shark passes beyond the opposite
edge (`x > 174` rightwards or `x < -30` leftwards after its move) leaves
it inactive with a fresh random cooldown in `[200, 500]`. -/
theorem C6_shark_lifecycle :
    (∀ g : Nat → Int, ∀ st : Aquarium, (∀ n, 0 ≤ g n) →
        st.shark.active = false → st.shark.timer = 1 →
        (animation_update g st).shark.active = true ∧
        ((animation_update g st).shark.direction = 1 ∧
            (animation_update g st).shark.posx = -30 ∨
          (animation_update g st).shark.direction = -1 ∧
            (animation_update g st).shark.posx = 174) ∧
        (50 ≤ (animation_update g st).shark.posy ∧ (animation_update g st).shark.posy ≤ 99))
    ∧ (∀ g : Nat → Int, ∀ st : Aquarium, (∀ n, 0 ≤ g n) →
        st.shark.active = true →
        ((st.shark.direction = 1 ∧
            174 < st.shark.posx + st.shark.direction * st.shark.speed) ∨
          (st.shark.direction = -1 ∧
            st.shark.posx + st.shark.direction * st.shark.speed < -30)) →
        (animation_update g st).shark.active = false ∧
        200 ≤ (animation_update g st).shark.timer ∧
        (animation_update g st).shark.timer ≤ 500) := by
  constructor
  · intro g st hg h1 h2
    rw [animation_update_shark]
    exact shark_phase_shark_dormant g (pre_shark_state g st) h1 h2 hg
  · intro g st hg h1 h2
    rw [animation_update_shark]
    exact shark_phase_shark_exit g (pre_shark_state g st) h1 h2 hg

/-- C6 witness: both transitions at concrete scenes and the constant
oracle 5. -/
theorem C6_shark_lifecycle_witness :
    ((animation_update (fun _ => 5) dormantSharkScene).shark.active = true ∧
      ((animation_update (fun _ => 5) dormantSharkScene).shark.direction = 1 ∧
          (animation_update (fun _ => 5) dormantSharkScene).shark.posx = -30 ∨
        (animation_update (fun _ => 5) dormantSharkScene).shark.direction = -1 ∧
          (animation_update (fun _ => 5) dormantSharkScene).shark.posx = 174) ∧
      (50 ≤ (animation_update (fun _ => 5) dormantSharkScene).shark.posy ∧
        (animation_update (fun _ => 5) dormantSharkScene).shark.posy ≤ 99)) ∧
    ((animation_update (fun _ => 5) exitingSharkScene).shark.active = false ∧
      200 ≤ (animation_update (fun _ => 5) exitingSharkScene).shark.timer ∧
      (animation_update (fun _ => 5) exitingSharkScene).shark.timer ≤ 500) :=
  ⟨C6_shark_lifecycle.1 (fun _ => 5) dormantSharkScene (fun _ => by norm_num) rfl rfl,
   C6_shark_lifecycle.2 (fun _ => 5) exitingSharkScene (fun _ => by norm_num) rfl
     (by decide)⟩

/-- Backwards fold invariant: if the property holds after the fold and
every step reflects it, it held before. -/
theorem foldl_imp {α β : Type} (f : α → β → α) (P : α → Prop) (l : List β) (acc : α)
    (hstep : ∀ a b, b ∈ l → (P (f a b) → P a)) (h : P (l.foldl f acc)) : P acc := by
  induction l generalizing acc with
  | nil => exact h
  | cons a t ih =>
    rw [List.foldl_cons] at h
    exact hstep _ _ (List.mem_cons_self a t)
      (ih _ (fun x b hb => hstep x b (List.mem_cons_of_mem a hb)) h)

/-- A fish that is active after one movement step was active before. -/
theorem fish_move_step_active {g : Nat → Int} {acc : (Fin 7 → Fish) × Nat} {i idx : Fin 7}
    (h : ((fish_move_step g acc i).1 idx).active = true) : (acc.1 idx).active = true := by
  simp only [fish_move_step] at h
  split_ifs at h with h1 h2
  all_goals try exact h
  all_goals simp only [Function.update_apply] at h
  all_goals rcases eq_or_ne idx i with he | he
  all_goals try (rw [he]; exact h1)
  all_goals rw [if_neg he] at h
  all_goals exact h

/-- A fish active after the whole movement fold was active before. -/
theorem fish_move_fold_active (g : Nat → Int) (l : List (Fin 7))
    (acc : (Fin 7 → Fish) × Nat) (idx : Fin 7)
    (h : ((l.foldl (fish_move_step g) acc).1 idx).active = true) :
    (acc.1 idx).active = true :=
  foldl_imp (fish_move_step g) (fun a => (a.1 idx).active = true) l acc
    (fun _ _ _ hp => fish_move_step_active hp) h

/-- `mark_grid` does not change activity. -/
theorem mark_grid_active (fish : Fin 7 → Fish) (idx : Fin 7) :
    (mark_grid fish idx).active = (fish idx).active := by
  unfold mark_grid
  split_ifs <;> rfl

/-- The prey test of the collision pass never activates a fish. -/
theorem collision_prey_step_active {g : Nat → Int} {i : Fin 7}
    {acc : (Fin 7 → Fish) × (Fin 8 → Bubble) × Nat} {j idx : Fin 7}
    (h : ((collision_prey_step g i acc j).1 idx).active = true) :
    (acc.1 idx).active = true := by
  simp only [collision_prey_step] at h
  split_ifs at h with h1 h2
  all_goals try exact h
  all_goals simp only [Function.update_apply] at h
  all_goals rcases eq_or_ne idx j with he | he
  all_goals try (rw [if_neg he] at h; exact h)
  all_goals rw [if_pos he] at h
  all_goals simp at h

/-- The per-predator cell scan never activates a fish. -/
theorem collision_pred_step_active {g : Nat → Int} {cells : Int → List (Fin 7)}
    {acc : (Fin 7 → Fish) × (Fin 8 → Bubble) × Nat} {i idx : Fin 7}
    (h : ((collision_pred_step g cells acc i).1 idx).active = true) :
    (acc.1 idx).active = true := by
  simp only [collision_pred_step] at h
  split_ifs at h with h1
  · refine foldl_imp _ (fun a => (a.1 idx).active = true) _ acc (fun a1 dy _ hp => ?_) h
    refine foldl_imp _ (fun a => (a.1 idx).active = true) _ a1 (fun a2 dx _ hp2 => ?_) hp
    split_ifs at hp2 with h2
    · exact foldl_imp _ (fun a => (a.1 idx).active = true) _ a2
        (fun a3 j _ hp3 => collision_prey_step_active hp3) hp2
    · exact hp2
  · exact h

/-- A fish active after the whole collision pass was active before. -/
theorem collision_pass_active (g : Nat → Int) (cells : Int → List (Fin 7))
    (f0 : Fin 7 → Fish) (bs0 : Fin 8 → Bubble) (k0 : Nat) (idx : Fin 7)
    (h : ((collision_pass g cells f0 bs0 k0).1 idx).active = true) :
    (f0 idx).active = true := by
  simp only [collision_pass] at h
  exact foldl_imp _ (fun a => (a.1 idx).active = true) _ (f0, bs0, k0)
    (fun _ _ _ hp => collision_pred_step_active hp) h

/-- The respawn loop leaves any slot other than the one under test
untouched. -/
theorem respawn_step_active {g : Nat → Int} {acc : (Fin 7 → Fish) × Nat} {i idx : Fin 7}
    (hne : idx ≠ i) (h : ((respawn_step g acc i).1 idx).active = true) :
    (acc.1 idx).active = true := by
  simp only [respawn_step] at h
  split_ifs at h with h1 h2
  all_goals try exact h
  all_goals simp only [Function.update_apply] at h
  all_goals rw [if_neg hne] at h
  all_goals exact h

/-- A big fish (slot 5 or 6) active after the respawn loop was active
before it: the loop only scans the small-fish slots. -/
theorem respawn_fold_active (g : Nat → Int) (acc : (Fin 7 → Fish) × Nat) (idx : Fin 7)
    (h5 : 5 ≤ idx.val)
    (h : ((smallFishIdx.foldl (respawn_step g) acc).1 idx).active = true) :
    (acc.1 idx).active = true := by
  refine foldl_imp _ (fun a => (a.1 idx).active = true) _ acc (fun a i hi hp => ?_) h
  have hlt : i.val < 5 := by
    have hall : ∀ x ∈ smallFishIdx, x.val < 5 := by decide
    exact hall i hi
  exact respawn_step_active (by intro he; rw [he] at h5; omega) hp

/-- The shark's prey loop never activates a fish. -/
theorem shark_eat_step_active {g : Nat → Int} {sx sy : Int}
    {acc : (Fin 7 → Fish) × (Fin 8 → Bubble) × Int × Nat} {i idx : Fin 7}
    (h : ((shark_eat_step g sx sy acc i).1 idx).active = true) :
    (acc.1 idx).active = true := by
  simp only [shark_eat_step] at h
  split_ifs at h with h1 h2
  all_goals try exact h
  all_goals simp only [Function.update_apply] at h
  all_goals rcases eq_or_ne idx i with he | he
  all_goals try (rw [if_neg he] at h; exact h)
  all_goals rw [if_pos he] at h
  all_goals simp at h

/-- A fish active after the shark block was active before it. -/
theorem shark_phase_fish_active (g : Nat → Int) (p : Aquarium × Nat) (idx : Fin 7)
    (h : ((shark_phase g p).1.fish idx).active = true) :
    (p.1.fish idx).active = true := by
  simp only [shark_phase] at h
  split_ifs at h with h1 h2 h3
  all_goals try exact h
  all_goals
    exact foldl_imp
      (shark_eat_step g (p.1.shark.posx + p.1.shark.direction * p.1.shark.speed)
        p.1.shark.posy)
      (fun a => (a.1 idx).active = true) (List.finRange 7)
      (p.1.fish, p.1.bubbles, 0, p.2)
      (fun _ _ _ hp => shark_eat_step_active hp) h

/-- Explicit unfolding of the fish component of `pre_shark_state`. -/
theorem pre_shark_state_fish (g : Nat → Int) (st : Aquarium) :
    (pre_shark_state g st).1.fish =
      (smallFishIdx.foldl (respawn_step g)
        ((collision_pass g
            (grid_cells ((List.finRange 7).foldl (fish_move_step g) (st.fish, 0)).1)
            (mark_grid ((List.finRange 7).foldl (fish_move_step g) (st.fish, 0)).1)
            st.bubbles
            ((List.finRange 7).foldl (fish_move_step g) (st.fish, 0)).2).1,
          (collision_pass g
            (grid_cells ((List.finRange 7).foldl (fish_move_step g) (st.fish, 0)).1)
            (mark_grid ((List.finRange 7).foldl (fish_move_step g) (st.fish, 0)).1)
            st.bubbles
            ((List.finRange 7).foldl (fish_move_step g) (st.fish, 0)).2).2.2)).1 := rfl

/-- The fish pool of a finished step is the one computed by the shark
block on `pre_shark_state`. -/
theorem animation_update_fish (g : Nat → Int) (st : Aquarium) :
    (animation_update g st).fish = (shark_phase g (pre_shark_state g st)).1.fish := rfl

/-- Master single-step preservation: a big-fish slot (index 5 or 6) that
is active after a step was active before it. -/
theorem animation_update_big_active (g : Nat → Int) (st : Aquarium) (idx : Fin 7)
    (h5 : 5 ≤ idx.val)
    (h : ((animation_update g st).fish idx).active = true) :
    (st.fish idx).active = true := by
  rw [animation_update_fish] at h
  have h2 := shark_phase_fish_active g (pre_shark_state g st) idx h
  rw [pre_shark_state_fish] at h2
  have h3 := respawn_fold_active g _ idx h5 h2
  have h4 := collision_pass_active g _ _ _ _ idx h3
  rw [mark_grid_active] at h4
  exact fish_move_fold_active g _ _ idx h4

/-- C9: once a big-fish slot (index at least `MAX_FISH`) is inactive —
for instance after the shark has eaten it — no later simulation step ever
re-activates it (the stochastic respawn loop only covers small-fish slots
and the off-screen respawn path is skipped for inactive fish), so the
number of active big fish never increases across a step. -/
theorem C9_big_fish_stay_dead :
    (∀ g : Nat → Int, ∀ st : Aquarium, ∀ idx : Fin 7, 5 ≤ idx.val →
        (st.fish idx).active = false → ((animation_update g st).fish idx).active = false)
    ∧ (∀ g : Nat → Int, ∀ st : Aquarium,
        bigActiveCount (animation_update g st).fish ≤ bigActiveCount st.fish) := by
  constructor
  · intro g st idx h5 h
    by_contra hc
    have ht : ((animation_update g st).fish idx).active = true := by
      cases hcase : ((animation_update g st).fish idx).active
      · exact absurd hcase hc
      · rfl
    have := animation_update_big_active g st idx h5 ht
    rw [h] at this
    exact Bool.false_ne_true this
  · intro g st
    have k5 : (if ((animation_update g st).fish 5).active then 1 else 0) ≤
        (if (st.fish 5).active then 1 else 0) := by
      by_cases hA : ((animation_update g st).fish 5).active = true
      · rw [if_pos hA, if_pos (animation_update_big_active g st 5 (by decide) hA)]
      · rw [if_neg hA]
        exact Nat.zero_le _
    have k6 : (if ((animation_update g st).fish 6).active then 1 else 0) ≤
        (if (st.fish 6).active then 1 else 0) := by
      by_cases hA : ((animation_update g st).fish 6).active = true
      · rw [if_pos hA, if_pos (animation_update_big_active g st 6 (by decide) hA)]
      · rw [if_neg hA]
        exact Nat.zero_le _
    exact Nat.add_le_add k5 k6

/-- C9 witness: a deactivated big-fish slot 5 stays inactive through a
concrete step, and the active-big count cannot grow. -/
theorem C9_big_fish_stay_dead_witness :
    ((animation_update (fun _ => 5) baseAquarium).fish 5).active = false ∧
    bigActiveCount (animation_update (fun _ => 5) baseAquarium).fish ≤
      bigActiveCount baseAquarium.fish :=
  ⟨C9_big_fish_stay_dead.1 (fun _ => 5) baseAquarium 5 (by decide) rfl,
   C9_big_fish_stay_dead.2 (fun _ => 5) baseAquarium⟩

/-- The truncating modulo keeps a nonnegative value in `[0, M)`. -/
theorem tmod_nonneg_lt (a M : Int) (ha : 0 ≤ a) (hM : 0 < M) :
    0 ≤ Int.tmod a M ∧ Int.tmod a M < M :=
  ⟨Int.tmod_nonneg M ha, Int.tmod_lt_of_pos a hM⟩

/-- Accumulating phase steps: reducing before or after adding the next
increment gives the same residue (nonnegative operands). -/
theorem tmod_add_step (a b M : Int) (ha : 0 ≤ a) (hb : 0 ≤ b) (hM : 0 < M) :
    Int.tmod (Int.tmod a M + b) M = Int.tmod (a + b) M := by
  have e1 : Int.tmod a M = a % M := Int.tmod_eq_emod ha hM.le
  have h1 : 0 ≤ a % M := Int.emod_nonneg a (by omega)
  have e2 : Int.tmod (a % M + b) M = (a % M + b) % M := Int.tmod_eq_emod (by omega) hM.le
  have e3 : Int.tmod (a + b) M = (a + b) % M := Int.tmod_eq_emod (by omega) hM.le
  rw [e1, e2, e3]
  exact Int.emod_add_emod a M b

/-- A value already in `[0, M)` is its own truncating residue. -/
theorem tmod_self_of_lt {a M : Int} (ha : 0 ≤ a) (h : a < M) : Int.tmod a M = a := by
  rw [Int.tmod_eq_emod ha (by omega)]
  exact Int.emod_eq_of_lt ha h

/-- One jellyfish step advances the tentacle phase by `speed * 100`
modulo the full circle and leaves the speed unchanged, whatever the
random draws do. -/
theorem update_jellyfish_offset (g : Nat → Int) (k : Nat) (j : Jellyfish) :
    (update_jellyfish g k j).1.tentacle_offset =
      Int.tmod (j.tentacle_offset + j.speed * 100) TRIG_MAX_ANGLE ∧
    (update_jellyfish g k j).1.speed = j.speed := by
  simp only [update_jellyfish]
  split_ifs <;> exact ⟨rfl, rfl⟩

/-- One octopus step advances the tentacle phase by `speed * 50` modulo
the full circle and leaves the speed unchanged. -/
theorem update_octopus_offset (g : Nat → Int) (k : Nat) (o : Octopus) :
    (update_octopus g k o).1.tentacle_offset =
      Int.tmod (o.tentacle_offset + o.speed * 50) TRIG_MAX_ANGLE ∧
    (update_octopus g k o).1.speed = o.speed := by
  simp only [update_octopus]
  split_ifs <;> exact ⟨rfl, rfl⟩

/-- After `N` jellyfish steps the phase equals the accumulated increment
reduced modulo the full circle. -/
theorem jellyIter_offset (g : Nat → Int) (N : Nat) (k : Nat) (j : Jellyfish)
    (h1 : 0 ≤ j.tentacle_offset) (h2 : j.tentacle_offset < TRIG_MAX_ANGLE)
    (h3 : 0 ≤ j.speed) :
    (jellyIter g N k j).1.tentacle_offset =
      Int.tmod (j.tentacle_offset + (N : Int) * (j.speed * 100)) TRIG_MAX_ANGLE ∧
    (jellyIter g N k j).1.speed = j.speed := by
  induction N generalizing k j with
  | zero =>
    simp only [jellyIter, Nat.cast_zero, zero_mul, add_zero]
    exact ⟨(tmod_self_of_lt h1 h2).symm, trivial⟩
  | succ n ih =>
    have hstep := update_jellyfish_offset g k j
    have hM : (0 : Int) < TRIG_MAX_ANGLE := by decide
    have hr1 : 0 ≤ (update_jellyfish g k j).1.tentacle_offset := by
      rw [hstep.1]; exact (tmod_nonneg_lt _ _ (by positivity) hM).1
    have hr2 : (update_jellyfish g k j).1.tentacle_offset < TRIG_MAX_ANGLE := by
      rw [hstep.1]; exact (tmod_nonneg_lt _ _ (by positivity) hM).2
    have hr3 : 0 ≤ (update_jellyfish g k j).1.speed := by rw [hstep.2]; exact h3
    simp only [jellyIter]
    have result := ih (update_jellyfish g k j).2 (update_jellyfish g k j).1 hr1 hr2 hr3
    constructor
    · rw [result.1, hstep.1, hstep.2]
      rw [tmod_add_step _ _ _ (by positivity) (by positivity) hM]
      congr 1
      push_cast
      ring
    · rw [result.2, hstep.2]


/-- After `N` octopus steps the phase equals the accumulated increment
reduced modulo the full circle. -/
theorem octoIter_offset (g : Nat → Int) (N : Nat) (k : Nat) (o : Octopus)
    (h1 : 0 ≤ o.tentacle_offset) (h2 : o.tentacle_offset < TRIG_MAX_ANGLE)
    (h3 : 0 ≤ o.speed) :
    (octoIter g N k o).1.tentacle_offset =
      Int.tmod (o.tentacle_offset + (N : Int) * (o.speed * 50)) TRIG_MAX_ANGLE ∧
    (octoIter g N k o).1.speed = o.speed := by
  induction N generalizing k o with
  | zero =>
    simp only [octoIter, Nat.cast_zero, zero_mul, add_zero]
    exact ⟨(tmod_self_of_lt h1 h2).symm, trivial⟩
  | succ n ih =>
    have hstep := update_octopus_offset g k o
    have hM : (0 : Int) < TRIG_MAX_ANGLE := by decide
    have hr1 : 0 ≤ (update_octopus g k o).1.tentacle_offset := by
      rw [hstep.1]; exact (tmod_nonneg_lt _ _ (by positivity) hM).1
    have hr2 : (update_octopus g k o).1.tentacle_offset < TRIG_MAX_ANGLE := by
      rw [hstep.1]; exact (tmod_nonneg_lt _ _ (by positivity) hM).2
    have hr3 : 0 ≤ (update_octopus g k o).1.speed := by rw [hstep.2]; exact h3
    simp only [octoIter]
    have result := ih (update_octopus g k o).2 (update_octopus g k o).1 hr1 hr2 hr3
    constructor
    · rw [result.1, hstep.1, hstep.2]
      rw [tmod_add_step _ _ _ (by positivity) (by positivity) hM]
      congr 1
      push_cast
      ring
    · rw [result.2, hstep.2]

/-- One seaweed step: phase plus `speed * 100`, reduced, speed fixed. -/
theorem seaweed_advance_offset (s : Seaweed) :
    (seaweed_advance s).offset = Int.tmod (s.offset + s.speed * 100) TRIG_MAX_ANGLE ∧
    (seaweed_advance s).speed = s.speed := ⟨rfl, rfl⟩

/-- After `N` seaweed steps the sway phase equals the accumulated
increment reduced modulo the full circle. -/
theorem seaweed_iter_offset (N : Nat) (s : Seaweed)
    (h1 : 0 ≤ s.offset) (h2 : s.offset < TRIG_MAX_ANGLE) (h3 : 0 ≤ s.speed) :
    (seaweed_advance^[N] s).offset =
      Int.tmod (s.offset + (N : Int) * (s.speed * 100)) TRIG_MAX_ANGLE ∧
    (seaweed_advance^[N] s).speed = s.speed := by
  induction N generalizing s with
  | zero =>
    simp only [Function.iterate_zero, id_eq, Nat.cast_zero, zero_mul, add_zero]
    exact ⟨(tmod_self_of_lt h1 h2).symm, trivial⟩
  | succ n ih =>
    have hM : (0 : Int) < TRIG_MAX_ANGLE := by decide
    have hr1 : 0 ≤ (seaweed_advance s).offset := by
      rw [(seaweed_advance_offset s).1]; exact (tmod_nonneg_lt _ _ (by positivity) hM).1
    have hr2 : (seaweed_advance s).offset < TRIG_MAX_ANGLE := by
      rw [(seaweed_advance_offset s).1]; exact (tmod_nonneg_lt _ _ (by positivity) hM).2
    have hr3 : 0 ≤ (seaweed_advance s).speed := by
      rw [(seaweed_advance_offset s).2]; exact h3
    rw [Function.iterate_succ_apply]
    have result := ih (seaweed_advance s) hr1 hr2 hr3
    constructor
    · rw [result.1, (seaweed_advance_offset s).1, (seaweed_advance_offset s).2]
      rw [tmod_add_step _ _ _ (by positivity) (by positivity) hM]
      congr 1
      push_cast
      ring
    · rw [result.2, (seaweed_advance_offset s).2]

/-- C8 counterexample: a turtle crossing the right screen edge has its
animation offset reset to 0 by the same step's `init_turtle`, not set to
the accumulated `(100 + 200) mod TRIG_MAX_ANGLE = 300` the claim
predicts. -/
theorem C8_counterexample :
    (update_turtle (fun _ => 0) 0 crossingTurtle).1.animation_offset = 0 ∧
    Int.tmod (100 + 1 * 200) TRIG_MAX_ANGLE = 300 ∧
    (0 : Int) ≠ 300 := by decide

/-- C8 (amended): every phase counter (seaweed sway, jellyfish and
octopus tentacle phases, turtle flipper phase) is reduced modulo
`TRIG_MAX_ANGLE` on every step and stays in `[0, TRIG_MAX_ANGLE)`; after
`N` steps the seaweed, jellyfish and octopus counters equal the sum of
their per-step increments reduced modulo `TRIG_MAX_ANGLE`.  The turtle's
counter obeys the same sum formula only on steps in which the turtle does
not leave the screen: the off-screen respawn path (`init_turtle`) resets
the offset to 0 instead. -/
theorem C8_amended :
    (∀ N : Nat, ∀ s : Seaweed, 0 ≤ s.offset → s.offset < TRIG_MAX_ANGLE → 0 ≤ s.speed →
        (seaweed_advance^[N] s).offset =
          Int.tmod (s.offset + (N : Int) * (s.speed * 100)) TRIG_MAX_ANGLE ∧
        0 ≤ (seaweed_advance^[N] s).offset ∧
        (seaweed_advance^[N] s).offset < TRIG_MAX_ANGLE)
    ∧ (∀ g : Nat → Int, ∀ N k : Nat, ∀ j : Jellyfish, 0 ≤ j.tentacle_offset →
        j.tentacle_offset < TRIG_MAX_ANGLE → 0 ≤ j.speed →
        (jellyIter g N k j).1.tentacle_offset =
          Int.tmod (j.tentacle_offset + (N : Int) * (j.speed * 100)) TRIG_MAX_ANGLE ∧
        0 ≤ (jellyIter g N k j).1.tentacle_offset ∧
        (jellyIter g N k j).1.tentacle_offset < TRIG_MAX_ANGLE)
    ∧ (∀ g : Nat → Int, ∀ N k : Nat, ∀ o : Octopus, 0 ≤ o.tentacle_offset →
        o.tentacle_offset < TRIG_MAX_ANGLE → 0 ≤ o.speed →
        (octoIter g N k o).1.tentacle_offset =
          Int.tmod (o.tentacle_offset + (N : Int) * (o.speed * 50)) TRIG_MAX_ANGLE ∧
        0 ≤ (octoIter g N k o).1.tentacle_offset ∧
        (octoIter g N k o).1.tentacle_offset < TRIG_MAX_ANGLE)
    ∧ (∀ g : Nat → Int, ∀ k : Nat, ∀ t : Turtle, 0 ≤ t.animation_offset →
        t.animation_offset < TRIG_MAX_ANGLE → 0 ≤ t.speed →
        (0 ≤ (update_turtle g k t).1.animation_offset ∧
          (update_turtle g k t).1.animation_offset < TRIG_MAX_ANGLE) ∧
        (¬((t.direction = 1 ∧ 144 < t.posx + t.direction * t.speed) ∨
            (t.direction = -1 ∧ t.posx + t.direction * t.speed < -15)) →
          (update_turtle g k t).1.animation_offset =
            Int.tmod (t.animation_offset + t.speed * 200) TRIG_MAX_ANGLE)) := by
  have hM : (0 : Int) < TRIG_MAX_ANGLE := by decide
  refine ⟨?_, ?_, ?_, ?_⟩
  · intro N s h1 h2 h3
    have h := seaweed_iter_offset N s h1 h2 h3
    refine ⟨h.1, ?_, ?_⟩
    · rw [h.1]; exact (tmod_nonneg_lt _ _ (by positivity) hM).1
    · rw [h.1]; exact (tmod_nonneg_lt _ _ (by positivity) hM).2
  · intro g N k j h1 h2 h3
    have h := jellyIter_offset g N k j h1 h2 h3
    refine ⟨h.1, ?_, ?_⟩
    · rw [h.1]; exact (tmod_nonneg_lt _ _ (by positivity) hM).1
    · rw [h.1]; exact (tmod_nonneg_lt _ _ (by positivity) hM).2
  · intro g N k o h1 h2 h3
    have h := octoIter_offset g N k o h1 h2 h3
    refine ⟨h.1, ?_, ?_⟩
    · rw [h.1]; exact (tmod_nonneg_lt _ _ (by positivity) hM).1
    · rw [h.1]; exact (tmod_nonneg_lt _ _ (by positivity) hM).2
  · intro g k t h1 h2 h3
    simp only [update_turtle]
    split_ifs with hcross
    · refine ⟨⟨le_refl 0, hM⟩, fun hn => absurd hcross hn⟩
    · exact ⟨⟨(tmod_nonneg_lt _ _ (by positivity) hM).1,
        (tmod_nonneg_lt _ _ (by positivity) hM).2⟩, fun _ => rfl⟩

/-- C8 amended witness: concrete instances of each conjunct (two seaweed
steps from phase 0, one jellyfish step, one octopus step, one on-screen
turtle step, with the constant oracle 5). -/
theorem C8_amended_witness :
    (seaweed_advance^[2] { basex := 20, basey := 168, offset := 0, speed := 1 }).offset =
      Int.tmod (0 + (2 : Int) * (1 * 100)) TRIG_MAX_ANGLE ∧
    (jellyIter (fun _ => 5) 1 0
        { posx := 72, posy := 120, tentacle_offset := 0, pulse_state := 0,
          speed := 1 }).1.tentacle_offset =
      Int.tmod (0 + (1 : Int) * (1 * 100)) TRIG_MAX_ANGLE ∧
    (octoIter (fun _ => 5) 1 0
        { posx := 72, posy := 25, direction := 1, tentacle_offset := 0,
          speed := 1 }).1.tentacle_offset =
      Int.tmod (0 + (1 : Int) * (1 * 50)) TRIG_MAX_ANGLE ∧
    (update_turtle (fun _ => 5) 0
        { posx := 50, posy := 80, direction := 1, animation_offset := 0,
          speed := 1 }).1.animation_offset =
      Int.tmod (0 + 1 * 200) TRIG_MAX_ANGLE :=
  ⟨(C8_amended.1 2 _ (by decide) (by decide) (by decide)).1,
   (C8_amended.2.1 (fun _ => 5) 1 0 _ (by decide) (by decide) (by decide)).1,
   (C8_amended.2.2.1 (fun _ => 5) 1 0 _ (by decide) (by decide) (by decide)).1,
   (C8_amended.2.2.2 (fun _ => 5) 0 _ (by decide) (by decide) (by decide)).2 (by decide)⟩

set_option maxRecDepth 100000 in
/-- C5 counterexample: with the all-zero draw sequence, the step eats
the prey but immediately re-initialises its slot via the same step's 2%
respawn roll (so `prey.active = true` at the step boundary), and no
bubble slot ends the step at the prey position (52, 51): the spawned
marker bubbles are advanced by the same step's bubble pass. -/
theorem C5_counterexample :
    ((animation_update (fun _ => 0) preyScene).fish 0).active = true ∧
    (∀ b : Fin 8, ¬(((animation_update (fun _ => 0) preyScene).bubbles b).active = true ∧
        ((animation_update (fun _ => 0) preyScene).bubbles b).posx = 52 ∧
        ((animation_update (fun _ => 0) preyScene).bubbles b).posy = 51)) := by decide

/-- Closed form of the sampler on a non-degenerate constant range. -/
theorem rir_eval (g : Nat → Int) (k : Nat) (mn mx : Int) (h : mn < mx) :
    random_in_range g k mn mx = (mn + Int.tmod (g k) (mx - mn + 1), k + 1) := by
  have h1 : ¬(mx ≤ mn) := by omega
  have h2 : ¬(mx - mn + 1 ≤ 0) := by omega
  simp only [random_in_range, if_neg h1, if_neg h2]

theorem preyMove_fish (g : Nat → Int) : (preyMove g).1 = preyScene.fish := by
  funext i
  fin_cases i <;>
    simp +decide [preyMove, finRange7, fish_move_step, preyScene, baseAquarium,
      inactiveFish, Function.update_apply]

theorem preyMove_counter (g : Nat → Int) : (preyMove g).2 = 0 := by
  simp +decide [preyMove, finRange7, fish_move_step, preyScene, baseAquarium,
    inactiveFish, Function.update_apply]

theorem preyScene_grid : grid_cells preyScene.fish = preyCells := by
  have h52 : get_grid_cell 52 51 = 0 := by decide
  have h100 : get_grid_cell 100 100 = 0 := by decide
  have h50 : get_grid_cell 50 50 = 0 := by decide
  funext c
  rcases eq_or_ne c 0 with rfl | hc
  · decide
  · rw [grid_cells_eq]
    simp only [preyCells, if_neg hc]
    rw [List.filter_eq_nil_iff]
    intro i hi
    fin_cases i <;>
      simp +decide [preyScene, baseAquarium, inactiveFish, h52, h100, h50, Ne.symm hc]

theorem preyScene_marked : mark_grid preyScene.fish = preyMarked := by
  have h52 : get_grid_cell 52 51 = 0 := by decide
  have h100 : get_grid_cell 100 100 = 0 := by decide
  have h50 : get_grid_cell 50 50 = 0 := by decide
  funext i
  fin_cases i <;>
    simp +decide [mark_grid, preyScene, preyMarked, baseAquarium, inactiveFish,
      h52, h100, h50]

set_option maxHeartbeats 1000000 in
theorem preyCollision_eval (g : Nat → Int) :
    preyCollision g = (fishAfterCollision, bubblesAfterCollision g, 6) := by
  have r12 : ∀ k, random_in_range g k 1 2 = (1 + Int.tmod (g k) 2, k + 1) := fun k => by
    rw [rir_eval g k 1 2 (by norm_num)]; norm_num
  have hccT : check_collision 50 50 7 52 51 4 = true := by decide
  have hccF : check_collision 50 50 7 100 100 4 = false := by decide
  have h1 : preyCollision g = collision_pass g preyCells preyMarked emptyBubbles 0 := by
    show collision_pass g (grid_cells (preyMove g).1) (mark_grid (preyMove g).1)
      preyScene.bubbles (preyMove g).2 = _
    rw [preyMove_fish, preyMove_counter, preyScene_grid, preyScene_marked]
    rfl
  rw [h1]
  refine Prod.ext_iff.mpr ⟨funext fun i => ?_, Prod.ext_iff.mpr ⟨funext fun b => ?_, ?_⟩⟩
  · fin_cases i <;>
      simp +decide [collision_pass, collision_pred_step, collision_prey_step,
        spawn_bubbles, finRange7, finRange8, preyCells, preyMarked, fishAfterCollision,
        inactiveFish, emptyBubbles, MAX_FISH, MAX_BIG_FISH, GRID_WIDTH, GRID_HEIGHT,
        r12, hccT, hccF, Function.update_apply]
  · fin_cases b <;>
      simp +decide [collision_pass, collision_pred_step, collision_prey_step,
        spawn_bubbles, finRange7, finRange8, preyCells, preyMarked, bubblesAfterCollision,
        inactiveFish, emptyBubbles, MAX_FISH, MAX_BIG_FISH, GRID_WIDTH, GRID_HEIGHT,
        r12, hccT, hccF, Function.update_apply]
  · simp +decide [collision_pass, collision_pred_step, collision_prey_step,
      spawn_bubbles, finRange7, finRange8, preyCells, preyMarked,
      inactiveFish, emptyBubbles, MAX_FISH, MAX_BIG_FISH, GRID_WIDTH, GRID_HEIGHT,
      r12, hccT, hccF, Function.update_apply]

/-- Small-fish respawn stage of the prey scenario: the eaten slot's 2%
roll fails (draw 6), every other small slot is still active, so the pool
is unchanged and one draw is consumed. -/
theorem prey_respawn (g : Nat → Int) (h6 : ¬Int.tmod (g 6) 100 < 2) :
    smallFishIdx.foldl (respawn_step g) (fishAfterCollision, 6) = (fishAfterCollision, 7) := by
  have r99 : ∀ k, random_in_range g k 0 99 = (Int.tmod (g k) 100, k + 1) := fun k => by
    rw [rir_eval g k 0 99 (by norm_num)]; norm_num
  simp +decide [smallFishIdx, respawn_step, fishAfterCollision, preyMarked, inactiveFish,
    r99, h6]

/-- Bubble stage of the prey scenario: with no wobble (draws 7-9 are
nonzero mod 3) and no respawn of the free slots (draws 10-14 fail the 1%
roll), the first marker bubble simply rises by its own speed. -/
theorem prey_bubbles (g : Nat → Int)
    (hb1 : 0 ≤ Int.tmod (g 1) 2) (hb1' : Int.tmod (g 1) 2 < 2)
    (hb3 : 0 ≤ Int.tmod (g 3) 2) (hb3' : Int.tmod (g 3) 2 < 2)
    (hb5 : 0 ≤ Int.tmod (g 5) 2) (hb5' : Int.tmod (g 5) 2 < 2)
    (h7 : Int.tmod (g 7) 3 ≠ 0) (h8 : Int.tmod (g 8) 3 ≠ 0) (h9 : Int.tmod (g 9) 3 ≠ 0)
    (h10 : ¬Int.tmod (g 10) 200 < 2) (h11 : ¬Int.tmod (g 11) 200 < 2)
    (h12 : ¬Int.tmod (g 12) 200 < 2) (h13 : ¬Int.tmod (g 13) 200 < 2)
    (h14 : ¬Int.tmod (g 14) 200 < 2) :
    ((List.finRange 8).foldl (bubble_step g) (bubblesAfterCollision g, 7)).1 0 =
      { posx := 52, posy := 51 - (1 + Int.tmod (g 1) 2), size := 1 + Int.tmod (g 0) 2,
        speed := 1 + Int.tmod (g 1) 2, active := true } := by
  have r3 : ∀ k, random_in_range g k 0 2 = (Int.tmod (g k) 3, k + 1) := fun k => by
    rw [rir_eval g k 0 2 (by norm_num)]; norm_num
  have r200 : ∀ k, random_in_range g k 0 199 = (Int.tmod (g k) 200, k + 1) := fun k => by
    rw [rir_eval g k 0 199 (by norm_num)]; norm_num
  have hy1 : ¬(51 - (1 + Int.tmod (g 1) 2) < 0) := by omega
  have hy3 : ¬(51 - (1 + Int.tmod (g 3) 2) < 0) := by omega
  have hy5 : ¬(51 - (1 + Int.tmod (g 5) 2) < 0) := by omega
  simp +decide [finRange8, bubble_step, bubblesAfterCollision, Function.update_apply,
    r3, r200, h7, h8, h9, h10, h11, h12, h13, h14, hy1, hy3, hy5]

/-- The bubble pool of a finished step is the one computed by the shark
block on `pre_shark_state`. -/
theorem animation_update_bubbles (g : Nat → Int) (st : Aquarium) :
    (animation_update g st).bubbles = (shark_phase g (pre_shark_state g st)).1.bubbles := rfl

/-- Frame lemma: the shark block does not touch the fish or bubble pools
while the shark is dormant with a cooldown that has not just expired. -/
theorem shark_phase_frame (g : Nat → Int) (p : Aquarium × Nat)
    (h1 : p.1.shark.active = false) (h2 : ¬(p.1.shark.timer ≤ 1)) :
    (shark_phase g p).1.fish = p.1.fish ∧ (shark_phase g p).1.bubbles = p.1.bubbles := by
  refine ⟨?_, ?_⟩ <;>
    · simp only [shark_phase, h1]
      norm_num
      rw [if_neg h2]

/-- C5 (corrected): in the prey-consumption scenario the collision pass
clears the prey's active flag and spawns marker bubbles at the prey
position (52, 51), but the same `animation_update` call then advances
those bubbles and may even respawn the eaten slot: at the step boundary
the prey is inactive provided its 2% respawn roll failed, and the marker
bubble is active at x = 52 but has already risen from y = 51 by its own
speed (1 or 2); a spawn into a pool with no free slot is silently
dropped, leaving the pool and the draw counter untouched. -/
theorem C5_amended :
    (∀ g : Nat → Int,
      (∀ n, 0 ≤ g n ∧ ¬Int.tmod (g n) 100 < 2 ∧ Int.tmod (g n) 3 ≠ 0 ∧
        ¬Int.tmod (g n) 200 < 2) →
      ((animation_update g preyScene).fish 0).active = false ∧
      ((animation_update g preyScene).bubbles 0).active = true ∧
      ((animation_update g preyScene).bubbles 0).posx = 52 ∧
      ((animation_update g preyScene).bubbles 0).posy =
        51 - ((animation_update g preyScene).bubbles 0).speed ∧
      1 ≤ ((animation_update g preyScene).bubbles 0).speed ∧
      ((animation_update g preyScene).bubbles 0).speed ≤ 2) ∧
    (∀ (g : Nat → Int) (k : Nat) (px py hi : Int) (bs : Fin 8 → Bubble),
      (∀ b, (bs b).active = true) → spawn_bubbles g bs k px py hi = (bs, k)) := by
  constructor
  · intro g H
    have h6 := (H 6).2.1
    have ht1 : 0 ≤ Int.tmod (g 1) 2 := Int.tmod_nonneg 2 (H 1).1
    have ht1' : Int.tmod (g 1) 2 < 2 := Int.tmod_lt_of_pos (g 1) (by norm_num)
    have ht3 : 0 ≤ Int.tmod (g 3) 2 := Int.tmod_nonneg 2 (H 3).1
    have ht3' : Int.tmod (g 3) 2 < 2 := Int.tmod_lt_of_pos (g 3) (by norm_num)
    have ht5 : 0 ≤ Int.tmod (g 5) 2 := Int.tmod_nonneg 2 (H 5).1
    have ht5' : Int.tmod (g 5) 2 < 2 := Int.tmod_lt_of_pos (g 5) (by norm_num)
    have hcol := preyCollision_eval g
    have hrs := prey_respawn g h6
    have hsf := shark_phase_frame g (pre_shark_state g preyScene)
      (by rw [pre_shark_state_shark]; rfl) (by rw [pre_shark_state_shark]; decide)
    have hpc : collision_pass g
        (grid_cells ((List.finRange 7).foldl (fish_move_step g) (preyScene.fish, 0)).1)
        (mark_grid ((List.finRange 7).foldl (fish_move_step g) (preyScene.fish, 0)).1)
        preyScene.bubbles
        ((List.finRange 7).foldl (fish_move_step g) (preyScene.fish, 0)).2 =
        (fishAfterCollision, bubblesAfterCollision g, 6) := hcol
    have hpb := prey_bubbles g ht1 ht1' ht3 ht3' ht5 ht5' (H 7).2.2.1 (H 8).2.2.1
      (H 9).2.2.1 (H 10).2.2.2 (H 11).2.2.2 (H 12).2.2.2 (H 13).2.2.2 (H 14).2.2.2
    have hfish : (animation_update g preyScene).fish 0 = fishAfterCollision 0 := by
      rw [animation_update_fish, hsf.1]
      simp only [pre_shark_state, hpc, hrs]
    have hbub : (animation_update g preyScene).bubbles 0 =
        { posx := 52, posy := 51 - (1 + Int.tmod (g 1) 2), size := 1 + Int.tmod (g 0) 2,
          speed := 1 + Int.tmod (g 1) 2, active := true } := by
      rw [animation_update_bubbles, hsf.2]
      simp only [pre_shark_state, hpc, hrs]
      exact hpb
    refine ⟨?_, ?_, ?_, ?_, ?_, ?_⟩
    · rw [hfish]; decide
    · rw [hbub]
    · rw [hbub]
    · rw [hbub]
    · rw [hbub]; dsimp only; omega
    · rw [hbub]; dsimp only; omega
  · intro g k px py hi bs hb
    delta spawn_bubbles
    dsimp only
    refine foldl_inv (fun a : ((Fin 8 → Bubble) × Nat) × Int => a.1 = (bs, k)) _ _ _
      (fun s b hs => ?_) rfl
    dsimp only
    split_ifs with hcond
    · exfalso
      have hbs : s.1.1 = bs := by rw [hs]
      rw [hbs, hb b] at hcond
      simp at hcond
    · exact hs

/-- C5 witness: the amended theorem applied at the constant oracle 5
(draw 5 passes every guard: 5 mod 100 = 5, 5 mod 3 = 2, 5 mod 200 = 5)
and, for the drop clause, at a fully occupied bubble pool. -/
theorem C5_amended_witness :
    ((animation_update (fun _ => 5) preyScene).fish 0).active = false ∧
    ((animation_update (fun _ => 5) preyScene).bubbles 0).active = true ∧
    ((animation_update (fun _ => 5) preyScene).bubbles 0).posx = 52 ∧
    spawn_bubbles (fun _ => 5) fullBubblePool 3 52 51 2 = (fullBubblePool, 3) := by
  have hyp : ∀ _ : Nat, (0 : Int) ≤ 5 ∧ ¬Int.tmod (5 : Int) 100 < 2 ∧
      Int.tmod (5 : Int) 3 ≠ 0 ∧ ¬Int.tmod (5 : Int) 200 < 2 := fun _ => by decide
  exact ⟨(C5_amended.1 (fun _ => 5) hyp).1, (C5_amended.1 (fun _ => 5) hyp).2.1,
    (C5_amended.1 (fun _ => 5) hyp).2.2.1,
    C5_amended.2 (fun _ => 5) 3 52 51 2 fullBubblePool (fun _ => rfl)⟩
